import Mathlib

/-!
# Designer canvas: pan/zoom controller, rectangle drawing and minimap

A shallow embedding of `src/js/canvas.js` and `src/js/minimap.js`.

Conventions of the embedding.

* JavaScript numbers are modelled by exact rationals `ℚ`; `parseFloat` of a style
  string written as a number followed by `px` gives that number back, so a style
  length is stored as the number itself.
* The closure variables of `createPanzoom` form the record `Panzoom`; every listener
  is a function from the record (and the event) to the new record.
* `applyTransform` writes the CSS transform of the canvas and dispatches
  `panzoomchange`, whose only listener (`updateMinimapViewport`) writes the style of
  the viewport indicator.  No handler reads either of them back, so they are not part
  of the state.
* Readings of the environment (`getBoundingClientRect`, `window.innerWidth`,
  `Date.now()`) are inputs carried by the event that triggers the handler.
-/

namespace DesignerCanvas

/-! ## Data model -/

/-- The value returned by `getTransform`: `{ x, y, scale }`. -/
structure Transform where
  x : ℚ
  y : ℚ
  scale : ℚ
deriving DecidableEq

/-- The mode flag of `CanvasManager`: `'pan'` or `'create'`. -/
inductive Mode where
  | pan
  | create
deriving DecidableEq

/-- The closure variables of `createPanzoom` (canvas.js lines 43-49). -/
structure Panzoom where
  scale : ℚ
  translateX : ℚ
  translateY : ℚ
  isDragging : Bool
  startX : ℚ
  startY : ℚ
  disablePan : Bool
deriving DecidableEq

/-- The fields of a mouse event that the handlers read. -/
structure MouseEvent where
  clientX : ℚ
  clientY : ℚ
deriving DecidableEq

/-- The result of `getBoundingClientRect()`. -/
structure DOMRect where
  left : ℚ
  top : ℚ
  width : ℚ
  height : ℚ
deriving DecidableEq

/-- A wheel event on the canvas container, with the container's bounding rectangle
as read by the listener. -/
structure WheelEvent where
  clientX : ℚ
  clientY : ℚ
  deltaY : ℚ
  rect : DOMRect
deriving DecidableEq

/-- A double click on the canvas container, with the container's bounding rectangle
as read by the listener. -/
structure DblClickEvent where
  clientX : ℚ
  clientY : ℚ
  rect : DOMRect
deriving DecidableEq

/-- The size of the browser window: `window.innerWidth`, `window.innerHeight`. -/
structure Window where
  innerWidth : ℚ
  innerHeight : ℚ
deriving DecidableEq

/-! ## The transform controller (`createPanzoom`) -/

namespace Panzoom

/-- The closure state right after `createPanzoom` has initialised its variables
(canvas.js lines 43-49). -/
def create (win : Window) (canvasWidth canvasHeight : ℚ) : Panzoom :=
  { scale := 1
    translateX := (win.innerWidth - canvasWidth) / 2
    translateY := (win.innerHeight - canvasHeight) / 2
    isDragging := false
    startX := 0
    startY := 0
    disablePan := false }

/-- The API method `getTransform` (canvas.js line 124). -/
def getTransform (p : Panzoom) : Transform :=
  { x := p.translateX, y := p.translateY, scale := p.scale }

/-- The API method `pan` (canvas.js lines 119-123). -/
def pan (p : Panzoom) (x y : ℚ) : Panzoom :=
  { p with translateX := x, translateY := y }

/-- The API method `setOptions` (canvas.js lines 125-129); `none` stands for an options
object without the property `disablePan`. -/
def setOptions (p : Panzoom) (disablePan : Option Bool) : Panzoom :=
  match disablePan with
  | some b => { p with disablePan := b }
  | none => p

/-- The API method `setPanAndScale` (canvas.js lines 131-136). -/
def setPanAndScale (p : Panzoom) (newX newY newScale : ℚ) : Panzoom :=
  { p with scale := newScale, translateX := newX, translateY := newY }

/-- The `mousedown` listener on the canvas (canvas.js lines 63-71). -/
def onMouseDown (mode : Mode) (p : Panzoom) (e : MouseEvent) : Panzoom :=
  if mode = Mode.pan ∧ p.disablePan = false then
    { p with isDragging := true
             startX := e.clientX - p.translateX
             startY := e.clientY - p.translateY }
  else p

/-- The `mousemove` listener on the document (canvas.js lines 72-79). -/
def onMouseMove (p : Panzoom) (e : MouseEvent) : Panzoom :=
  if p.isDragging = true then
    { p with translateX := e.clientX - p.startX
             translateY := e.clientY - p.startY }
  else p

/-- The `mouseup` listener on the document (canvas.js lines 80-85). -/
def onMouseUp (p : Panzoom) : Panzoom :=
  if p.isDragging = true then { p with isDragging := false } else p

/-- The `wheel` listener on the canvas container (canvas.js lines 88-103). -/
def onWheel (p : Panzoom) (e : WheelEvent) : Panzoom :=
  let mouseX := e.clientX - e.rect.left
  let mouseY := e.clientY - e.rect.top
  let pointX := (mouseX - p.translateX) / p.scale
  let pointY := (mouseY - p.translateY) / p.scale
  let zoomFactor : ℚ := if e.deltaY < 0 then 11 / 10 else 9 / 10
  let newScale := max (1 / 10) (min 5 (p.scale * zoomFactor))
  if newScale ≠ p.scale then
    { p with translateX := mouseX - pointX * newScale
             translateY := mouseY - pointY * newScale
             scale := newScale }
  else p

/-- The `dblclick` listener on the canvas container (canvas.js lines 104-116). -/
def onDblClick (p : Panzoom) (e : DblClickEvent) : Panzoom :=
  let mouseX := e.clientX - e.rect.left
  let mouseY := e.clientY - e.rect.top
  let transform := p.getTransform
  let pointX := (mouseX - transform.x) / transform.scale
  let pointY := (mouseY - transform.y) / transform.scale
  let newScale := min 5 (transform.scale * 2)
  let newX := mouseX - pointX * newScale
  let newY := mouseY - pointY * newScale
  p.setPanAndScale newX newY newScale

end Panzoom

/-- A zoom operation of the controller: a wheel step or a double click. -/
inductive ZoomOp where
  | wheel (e : WheelEvent)
  | dblclick (e : DblClickEvent)

/-- Runs one zoom operation. -/
def ZoomOp.apply (p : Panzoom) : ZoomOp → Panzoom
  | ZoomOp.wheel e => p.onWheel e
  | ZoomOp.dblclick e => p.onDblClick e

/-- The world-space coordinate under the screen coordinate `screen`, for a translation
`translate` and a scale `scale`: the inverse of `screen = world * scale + translate`. -/
def worldCoord (translate scale screen : ℚ) : ℚ :=
  (screen - translate) / scale

/-- The scale computed by the wheel listener: `newScale` of canvas.js line 96. -/
def wheelNewScale (p : Panzoom) (e : WheelEvent) : ℚ :=
  max (1 / 10) (min 5 (p.scale * (if e.deltaY < 0 then 11 / 10 else 9 / 10)))

/-! ## The minimap (`minimap.js`) -/

/-- A child `div` of the canvas made by `handleMouseDown`.  The style lengths are in
world units; `id` is `dataset.id` (absent until `createMinimapRectangle` stamps it);
`dragListener` records that `makeRectangleDraggable` installed its `move` listener and
`dragEnabled` is the `enabled` option last given to `interact(rect).draggable`. -/
structure RectEl where
  left : ℚ
  top : ℚ
  width : ℚ
  height : ℚ
  id : Option Nat
  dragListener : Bool
  dragEnabled : Bool
deriving DecidableEq

/-- A `mini-rectangle` child of the minimap: `dataset.forRectangle` and the four
style percentages. -/
structure MiniRect where
  forRectangle : Nat
  left : ℚ
  top : ℚ
  width : ℚ
  height : ℚ
deriving DecidableEq

/-- The fields of `MinimapManager` that its methods read or write, with the
`mini-rectangle` children of the minimap in document order. -/
structure MinimapManager where
  canvasWidth : ℚ
  canvasHeight : ℚ
  miniRectangles : List MiniRect
deriving DecidableEq

/-- A click inside the minimap container: whether its target is the minimap element
itself, the minimap's bounding rectangle and the window size, as read by the handler. -/
structure MinimapClickEvent where
  clientX : ℚ
  clientY : ℚ
  targetIsMinimap : Bool
  rect : DOMRect
  win : Window
deriving DecidableEq

/-- Applies `f` to the element at index `i` of a list: the effect of mutating the
object that a reference points to. -/
def mutateAt {α : Type} (f : α → α) : Nat → List α → List α
  | _, [] => []
  | 0, a :: l => f a :: l
  | i + 1, a :: l => a :: mutateAt f i l

/-- A JavaScript `Map` from `dataset` identifiers to element references; a reference
to a mini-rectangle is its index among the minimap's children. -/
abbrev RefMap := Nat → Option Nat

/-- The loop `miniRectangles.forEach(miniRect => miniMap.set(...))` of
`updateMinimapRectangles` (minimap.js lines 101-103); `i` is the index of the head. -/
def buildMiniMap : List MiniRect → Nat → RefMap → RefMap
  | [], _, m => m
  | miniRect :: rest, i, m =>
      buildMiniMap rest (i + 1) (fun k => if k = miniRect.forRectangle then some i else m k)

namespace MinimapManager

/-- The method `updateMinimapRectanglePosition` (minimap.js lines 82-91). -/
def updateMinimapRectanglePosition (m : MinimapManager) (miniRect : MiniRect)
    (rectangle : RectEl) : MiniRect :=
  let left := rectangle.left / m.canvasWidth * 100
  let top := rectangle.top / m.canvasHeight * 100
  let width := rectangle.width / m.canvasWidth * 100
  let height := rectangle.height / m.canvasHeight * 100
  { miniRect with left := left, top := top, width := width, height := height }

/-- The method `createMinimapRectangle` (minimap.js lines 67-74); `now` is the reading
of `Date.now()`.  Returns the manager and the rectangle, both as mutated. -/
def createMinimapRectangle (m : MinimapManager) (rectangle : RectEl) (now : Nat) :
    MinimapManager × RectEl :=
  let miniRect : MiniRect :=
    { forRectangle := now, left := 0, top := 0, width := 0, height := 0 }
  let rectangle := { rectangle with id := some miniRect.forRectangle }
  let miniRect := m.updateMinimapRectanglePosition miniRect rectangle
  ({ m with miniRectangles := m.miniRectangles ++ [miniRect] }, rectangle)

/-- The loop `rectangles.forEach(...)` of `updateMinimapRectangles`
(minimap.js lines 104-109). -/
def updateLoop (m : MinimapManager) (miniMap : RefMap) :
    List RectEl → List MiniRect → List MiniRect
  | [], minis => minis
  | rect :: rest, minis =>
      match rect.id.bind miniMap with
      | some j =>
          updateLoop m miniMap rest
            (mutateAt (fun miniRect => m.updateMinimapRectanglePosition miniRect rect) j minis)
      | none => updateLoop m miniMap rest minis

/-- The method `updateMinimapRectangles` (minimap.js lines 97-110); `rectangles` is the
result of `document.querySelectorAll('.rectangle')`. -/
def updateMinimapRectangles (m : MinimapManager) (rectangles : List RectEl) :
    MinimapManager :=
  let miniMap := buildMiniMap m.miniRectangles 0 (fun _ => none)
  { m with miniRectangles := updateLoop m miniMap rectangles m.miniRectangles }

/-- The method `handleMinimapClick` (minimap.js lines 133-145), acting on the
controller it holds as `customPanzoom`. -/
def handleMinimapClick (m : MinimapManager) (customPanzoom : Panzoom)
    (e : MinimapClickEvent) : Panzoom :=
  if e.targetIsMinimap = false then customPanzoom
  else
    let percentX := (e.clientX - e.rect.left) / e.rect.width
    let percentY := (e.clientY - e.rect.top) / e.rect.height
    let targetX := percentX * m.canvasWidth
    let targetY := percentY * m.canvasHeight
    let scale := customPanzoom.getTransform.scale
    let x := (e.win.innerWidth / 2) - (targetX * scale)
    let y := (e.win.innerHeight / 2) - (targetY * scale)
    customPanzoom.pan x y

end MinimapManager

/-- The exported function `setupMinimap` (minimap.js lines 153-157): the value it
stores in `MinimapManager.instance`. -/
def setupMinimap (canvasWidth canvasHeight : ℚ) : Option MinimapManager :=
  some { canvasWidth := canvasWidth, canvasHeight := canvasHeight, miniRectangles := [] }

/-- The exported function `createMinimapRectangle` (minimap.js lines 163-169), acting
on `MinimapManager.instance`. -/
def createMinimapRectangle (inst : Option MinimapManager) (rectangle : RectEl)
    (now : Nat) : Option MinimapManager × RectEl :=
  match inst with
  | none => (none, rectangle)
  | some m => ((m.createMinimapRectangle rectangle now).1,
               (m.createMinimapRectangle rectangle now).2)

/-- The exported function `updateMinimapRectangles` (minimap.js lines 174-180), acting
on `MinimapManager.instance`. -/
def updateMinimapRectangles (inst : Option MinimapManager) (rectangles : List RectEl) :
    Option MinimapManager :=
  match inst with
  | none => none
  | some m => some (m.updateMinimapRectangles rectangles)

/-! ## The canvas manager (`canvas.js`) -/

/-- The state of the application: the fields of `CanvasManager`, the closure state of
its controller, the children of the canvas and `MinimapManager.instance`.

The children of the canvas are all made by `handleMouseDown`.  `rectangles` are those
of class `rectangle` in document order, which is the order in which they were given
that class: an element gets the class only while it is `currentRectangle`, and it was
appended after every element that had been `currentRectangle` before it.
`currentRectangle` is the element being drawn (of class `creating-rectangle`), and
`creating` are the other elements of class `creating-rectangle`, which nothing
references any more. -/
structure CanvasManager where
  mode : Mode
  isDrawing : Bool
  currentRectangle : Option RectEl
  rectangleStartX : ℚ
  rectangleStartY : ℚ
  canvasWidth : ℚ
  canvasHeight : ℚ
  panzoom : Panzoom
  rectangles : List RectEl
  creating : List RectEl
  minimapInstance : Option MinimapManager
deriving DecidableEq

/-- What a `mousedown` on the canvas hit: the canvas itself (the background), a child
whose class list contains `rectangle`, or a child of class `creating-rectangle`. -/
inductive Target where
  | background
  | rectangle
  | creatingRectangle
deriving DecidableEq

namespace CanvasManager

/-- The method `centerCanvas` (canvas.js lines 171-176). -/
def centerCanvas (s : CanvasManager) (win : Window) : CanvasManager :=
  { s with panzoom := s.panzoom.pan ((win.innerWidth - s.canvasWidth) / 2)
                                    ((win.innerHeight - s.canvasHeight) / 2) }

/-- The constructor (canvas.js lines 12-35), in a window of size `win` and a document
whose canvas and minimap have no children. -/
def new (win : Window) : CanvasManager :=
  let s : CanvasManager :=
    { mode := Mode.pan
      isDrawing := false
      currentRectangle := none
      rectangleStartX := 0
      rectangleStartY := 0
      canvasWidth := 10000
      canvasHeight := 10000
      panzoom := Panzoom.create win 10000 10000
      rectangles := []
      creating := []
      minimapInstance := setupMinimap 10000 10000 }
  s.centerCanvas win

/-- The method `setRectanglesDraggable` (canvas.js lines 210-214). -/
def setRectanglesDraggable (s : CanvasManager) (enabled : Bool) : CanvasManager :=
  { s with rectangles := s.rectangles.map (fun rect => { rect with dragEnabled := enabled }) }

/-- The method `handleMouseDown` (canvas.js lines 221-243). -/
def handleMouseDown (s : CanvasManager) (target : Target) (e : MouseEvent) : CanvasManager :=
  if s.mode ≠ Mode.create then s
  else if target = Target.rectangle then s
  else
    let transform := s.panzoom.getTransform
    let x := (e.clientX - transform.x) / transform.scale
    let y := (e.clientY - transform.y) / transform.scale
    { s with
      isDrawing := true
      rectangleStartX := x
      rectangleStartY := y
      currentRectangle := some
        { left := x, top := y, width := 0, height := 0, id := none,
          dragListener := false, dragEnabled := false }
      creating := s.creating ++ s.currentRectangle.toList }

/-- The method `handleMouseMove` (canvas.js lines 250-277). -/
def handleMouseMove (s : CanvasManager) (e : MouseEvent) : CanvasManager :=
  match s.isDrawing, s.currentRectangle with
  | true, some currentRectangle =>
      let transform := s.panzoom.getTransform
      let x := (e.clientX - transform.x) / transform.scale
      let y := (e.clientY - transform.y) / transform.scale
      let width := x - s.rectangleStartX
      let height := y - s.rectangleStartY
      let r1 : RectEl :=
        if width < 0 then { currentRectangle with left := x, width := |width| }
        else { currentRectangle with left := s.rectangleStartX, width := width }
      let r2 : RectEl :=
        if height < 0 then { r1 with top := y, height := |height| }
        else { r1 with top := s.rectangleStartY, height := height }
      { s with currentRectangle := some r2 }
  | _, _ => s

/-- The method `makeRectangleDraggable` (canvas.js lines 310-328): installs the `move`
listener; a draggable made this way is enabled. -/
def makeRectangleDraggable (rectangle : RectEl) : RectEl :=
  { rectangle with dragListener := true, dragEnabled := true }

/-- The method `handleMouseUp` (canvas.js lines 284-303); `now` is the reading of
`Date.now()` taken if the rectangle is committed.  The handler does not read its
event. -/
def handleMouseUp (s : CanvasManager) (now : Nat) : CanvasManager :=
  match s.isDrawing, s.currentRectangle with
  | true, some currentRectangle =>
      let width := currentRectangle.width
      let height := currentRectangle.height
      if 0 < width ∧ 0 < height then
        let rect :=
          if s.mode = Mode.create then makeRectangleDraggable currentRectangle
          else { currentRectangle with dragEnabled := false }
        let r := createMinimapRectangle s.minimapInstance rect now
        { s with isDrawing := false
                 rectangles := s.rectangles ++ [r.2]
                 minimapInstance := r.1
                 currentRectangle := none }
      else
        { s with isDrawing := false, currentRectangle := none }
  | _, _ => s

/-- The listeners of `mousedown` on the canvas, in the order of their registration:
the controller's, then `handleMouseDown`. -/
def onCanvasMouseDown (s : CanvasManager) (target : Target) (e : MouseEvent) :
    CanvasManager :=
  handleMouseDown { s with panzoom := s.panzoom.onMouseDown s.mode e } target e

/-- The listeners of `mousemove` on the document, in the order of their registration:
the controller's, then `handleMouseMove`. -/
def onDocumentMouseMove (s : CanvasManager) (e : MouseEvent) : CanvasManager :=
  handleMouseMove { s with panzoom := s.panzoom.onMouseMove e } e

/-- The listeners of `mouseup` on the document, in the order of their registration:
the controller's, then `handleMouseUp`. -/
def onDocumentMouseUp (s : CanvasManager) (now : Nat) : CanvasManager :=
  handleMouseUp { s with panzoom := s.panzoom.onMouseUp } now

/-- The method `switchMode` (canvas.js lines 182-204).  The `MouseEvent` it builds has
the default coordinates (0, 0) and bubbles, so each of its two dispatches runs the
`mousemove` listeners of the document. -/
def switchMode (s : CanvasManager) : CanvasManager :=
  if s.mode = Mode.pan then
    let s1 := { s with mode := Mode.create }
    let evt : MouseEvent := { clientX := 0, clientY := 0 }
    let s2 := s1.onDocumentMouseMove evt
    let s3 := s2.onDocumentMouseMove evt
    let s4 := { s3 with panzoom := s3.panzoom.setOptions (some true) }
    s4.setRectanglesDraggable true
  else
    let s1 := { s with mode := Mode.pan }
    let s2 := { s1 with panzoom := s1.panzoom.setOptions (some false) }
    s2.setRectanglesDraggable false

/-- The `move` listener installed by `makeRectangleDraggable` (canvas.js lines
318-325), for the rectangle at index `i`; `dx`, `dy` are the deltas of the drag event. -/
def dragMoveListener (s : CanvasManager) (i : Nat) (dx dy : ℚ) : CanvasManager :=
  let rectangles := mutateAt
    (fun target =>
      let x := target.left + dx / s.panzoom.getTransform.scale
      let y := target.top + dy / s.panzoom.getTransform.scale
      { target with left := x, top := y }) i s.rectangles
  { s with rectangles := rectangles
           minimapInstance := updateMinimapRectangles s.minimapInstance rectangles }

/-- A drag-move of the rectangle at index `i`: the listener runs if the rectangle has
one and its draggable is enabled. -/
def onRectangleDragMove (s : CanvasManager) (i : Nat) (dx dy : ℚ) : CanvasManager :=
  match s.rectangles.get? i with
  | some rect =>
      if rect.dragListener = true ∧ rect.dragEnabled = true then s.dragMoveListener i dx dy
      else s
  | none => s

/-- A click inside the minimap, handled by the instance if there is one. -/
def onMinimapClick (s : CanvasManager) (e : MinimapClickEvent) : CanvasManager :=
  match s.minimapInstance with
  | some m => { s with panzoom := m.handleMinimapClick s.panzoom e }
  | none => s

end CanvasManager

/-- The input events of the application. -/
inductive Event where
  | mouseDown (target : Target) (e : MouseEvent)
  | mouseMove (e : MouseEvent)
  | mouseUp (now : Nat)
  | createBtnClick
  | wheel (e : WheelEvent)
  | dblclick (e : DblClickEvent)
  | minimapClick (e : MinimapClickEvent)
  | rectangleDragMove (i : Nat) (dx dy : ℚ)

/-- Runs the listeners of one event. -/
def step (s : CanvasManager) : Event → CanvasManager
  | Event.mouseDown target e => s.onCanvasMouseDown target e
  | Event.mouseMove e => s.onDocumentMouseMove e
  | Event.mouseUp now => s.onDocumentMouseUp now
  | Event.createBtnClick => s.switchMode
  | Event.wheel e => { s with panzoom := s.panzoom.onWheel e }
  | Event.dblclick e => { s with panzoom := s.panzoom.onDblClick e }
  | Event.minimapClick e => s.onMinimapClick e
  | Event.rectangleDragMove i dx dy => s.onRectangleDragMove i dx dy

/-- Runs the listeners of a sequence of events, in order. -/
def run (s : CanvasManager) (events : List Event) : CanvasManager :=
  events.foldl step s

/-- The states the application can be in: those reached from a freshly constructed
`CanvasManager` by a sequence of events. -/
def Reachable (s : CanvasManager) : Prop :=
  ∃ (win : Window) (events : List Event), s = run (CanvasManager.new win) events

/-- The mini-rectangles of the minimap (none if no instance was set up). -/
def proxies (s : CanvasManager) : List MiniRect :=
  match s.minimapInstance with
  | some m => m.miniRectangles
  | none => []

/-- The rectangle that `handleMouseUp` commits, before it is stamped. -/
def committedRect (mode : Mode) (cur : RectEl) : RectEl :=
  if mode = Mode.create then CanvasManager.makeRectangleDraggable cur
  else { cur with dragEnabled := false }

/-- The invariant of the application: the minimap manager exists, has as many
mini-rectangles as the canvas has rectangles, and projects a 10000 x 10000 canvas. -/
def Inv (s : CanvasManager) : Prop :=
  ∃ m, s.minimapInstance = some m ∧ m.miniRectangles.length = s.rectangles.length
    ∧ m.canvasWidth = 10000 ∧ m.canvasHeight = 10000

/-- The state during a draw gesture: after a pointer-down on the canvas background
and the pointer-moves `moves`, before the pointer-up. -/
def drawing (s : CanvasManager) (down : MouseEvent) (moves : List MouseEvent) :
    CanvasManager :=
  run s (Event.mouseDown Target.background down :: moves.map Event.mouseMove)

/-- A whole draw gesture: pointer-down on the background, pointer-moves, pointer-up. -/
def drawGesture (s : CanvasManager) (down : MouseEvent) (moves : List MouseEvent)
    (now : Nat) : CanvasManager :=
  step (drawing s down moves) (Event.mouseUp now)

/-- The last position of the pointer in a gesture. -/
def lastPosition (down : MouseEvent) (moves : List MouseEvent) : MouseEvent :=
  moves.getLast?.getD down

/-- The in-progress rectangle that spans the anchor `(sx, sy)` and the world point
`(x, y)`. -/
def spanRect (cur : RectEl) (sx sy x y : ℚ) : RectEl :=
  { cur with left := min sx x, top := min sy y, width := |x - sx|, height := |y - sy| }

/-- The link between proxies and rectangles: the i-th rectangle carries the identifier
of the i-th mini-rectangle. -/
def Linked (minis : List MiniRect) (rects : List RectEl) : Prop :=
  rects.map (fun r => r.id) = minis.map (fun miniRect => some miniRect.forRectangle)

/-- The clock readings offered to the pointer-ups of a sequence of events. -/
def clockReadings : List Event → List Nat
  | [] => []
  | Event.mouseUp now :: rest => now :: clockReadings rest
  | _ :: rest => clockReadings rest

/-- The identifiers carried by the proxies. -/
def proxyIds (s : CanvasManager) : List Nat :=
  (proxies s).map (fun miniRect => miniRect.forRectangle)

/-- The four style percentages of the viewport indicator. -/
structure ViewportIndicator where
  width : ℚ
  height : ℚ
  left : ℚ
  top : ℚ
deriving DecidableEq

/-- The method `updateMinimapViewport` (minimap.js lines 116-126), for the controller
held as `customPanzoom` and the window size `win`: the style it writes. -/
def MinimapManager.updateMinimapViewport (m : MinimapManager) (customPanzoom : Panzoom)
    (win : Window) : ViewportIndicator :=
  let transform := customPanzoom.getTransform
  let viewportWidth := win.innerWidth / (m.canvasWidth * transform.scale) * 100
  let viewportHeight := win.innerHeight / (m.canvasHeight * transform.scale) * 100
  let viewportX := (-transform.x / (m.canvasWidth * transform.scale)) * 100
  let viewportY := (-transform.y / (m.canvasHeight * transform.scale)) * 100
  { width := viewportWidth, height := viewportHeight, left := viewportX, top := viewportY }

/-- The world-space rectangle visible in the window under a transform, as a rectangle
element: the world points under the screen points (0, 0) and
(innerWidth, innerHeight). -/
def visibleWorldRect (transform : Transform) (win : Window) : RectEl :=
  { left := (0 - transform.x) / transform.scale
    top := (0 - transform.y) / transform.scale
    width := win.innerWidth / transform.scale
    height := win.innerHeight / transform.scale
    id := none, dragListener := false, dragEnabled := false }

/-- A rectangle lies on the 10000 x 10000 canvas and its width and height are not
negative. -/
def WithinCanvas (r : RectEl) : Prop :=
  0 ≤ r.left ∧ 0 ≤ r.top ∧ 0 ≤ r.width ∧ 0 ≤ r.height
    ∧ r.left + r.width ≤ 10000 ∧ r.top + r.height ≤ 10000

instance (r : RectEl) : Decidable (WithinCanvas r) := by
  unfold WithinCanvas
  infer_instance

/-- The four percentages of a mini-rectangle lie in [0, 100]. -/
def InRange (p : MiniRect) : Prop :=
  0 ≤ p.left ∧ p.left ≤ 100 ∧ 0 ≤ p.top ∧ p.top ≤ 100
    ∧ 0 ≤ p.width ∧ p.width ≤ 100 ∧ 0 ≤ p.height ∧ p.height ≤ 100

instance (p : MiniRect) : Decidable (InRange p) := by
  unfold InRange
  infer_instance

/-! ## Theorems -/

theorem wheelNewScale_mem (p : Panzoom) (e : WheelEvent) :
    1 / 10 ≤ wheelNewScale p e ∧ wheelNewScale p e ≤ 5 :=
  ⟨le_max_left _ _, max_le (by norm_num) (min_le_left _ _)⟩

theorem onWheel_of_ne (p : Panzoom) (e : WheelEvent) (h : wheelNewScale p e ≠ p.scale) :
    p.onWheel e =
      { p with
        translateX := (e.clientX - e.rect.left)
          - (e.clientX - e.rect.left - p.translateX) / p.scale * wheelNewScale p e
        translateY := (e.clientY - e.rect.top)
          - (e.clientY - e.rect.top - p.translateY) / p.scale * wheelNewScale p e
        scale := wheelNewScale p e } := by
  unfold wheelNewScale at h
  unfold Panzoom.onWheel wheelNewScale
  simp only
  rw [if_pos h]

theorem onWheel_of_eq (p : Panzoom) (e : WheelEvent) (h : wheelNewScale p e = p.scale) :
    p.onWheel e = p := by
  unfold wheelNewScale at h
  unfold Panzoom.onWheel
  simp only
  rw [if_neg (not_not.mpr h)]

theorem onWheel_scale_mem (p : Panzoom) (e : WheelEvent)
    (hlo : 1 / 10 ≤ p.scale) (hhi : p.scale ≤ 5) :
    1 / 10 ≤ (p.onWheel e).scale ∧ (p.onWheel e).scale ≤ 5 := by
  by_cases h : wheelNewScale p e = p.scale
  · rw [onWheel_of_eq p e h]
    exact ⟨hlo, hhi⟩
  · rw [onWheel_of_ne p e h]
    exact wheelNewScale_mem p e

theorem onDblClick_scale (p : Panzoom) (e : DblClickEvent) :
    (p.onDblClick e).scale = min 5 (p.scale * 2) := rfl

theorem onDblClick_scale_mem (p : Panzoom) (e : DblClickEvent)
    (hlo : 1 / 10 ≤ p.scale) :
    1 / 10 ≤ (p.onDblClick e).scale ∧ (p.onDblClick e).scale ≤ 5 := by
  rw [onDblClick_scale]
  exact ⟨le_min (by norm_num) (by linarith), min_le_left _ _⟩

/-- Moving the translation to `screen - world * s'` keeps `world` under `screen`. -/
theorem worldCoord_anchor (screen translate s s' : ℚ) (hs' : s' ≠ 0) :
    worldCoord (screen - (screen - translate) / s * s') s' screen
      = worldCoord translate s screen := by
  unfold worldCoord
  rw [sub_sub_cancel, mul_div_assoc, div_self hs', mul_one]

/-- C1. Wheel-zoom anchoring: for a scale in [0.1, 5.0], any translation, any pointer
position relative to the canvas container and any `deltaY`, the world point under the
pointer is the same before and after the wheel listener has run.  From
`{x:0, y:0, scale:1}`, one zoom-in step at (100,100) gives scale 1.1 and
translation (-10,-10). -/
theorem C1_wheel_zoom_anchoring :
    (∀ (p : Panzoom) (e : WheelEvent), 1 / 10 ≤ p.scale → p.scale ≤ 5 →
      worldCoord (p.onWheel e).translateX (p.onWheel e).scale (e.clientX - e.rect.left)
          = worldCoord p.translateX p.scale (e.clientX - e.rect.left)
      ∧ worldCoord (p.onWheel e).translateY (p.onWheel e).scale (e.clientY - e.rect.top)
          = worldCoord p.translateY p.scale (e.clientY - e.rect.top))
    ∧ ∀ (p : Panzoom) (e : WheelEvent),
        p.translateX = 0 → p.translateY = 0 → p.scale = 1 →
        e.clientX - e.rect.left = 100 → e.clientY - e.rect.top = 100 → e.deltaY < 0 →
        (p.onWheel e).getTransform = { x := -10, y := -10, scale := 11 / 10 } := by
  refine ⟨?_, ?_⟩
  · intro p e _ _
    by_cases h : wheelNewScale p e = p.scale
    · rw [onWheel_of_eq p e h]
      exact ⟨rfl, rfl⟩
    · rw [onWheel_of_ne p e h]
      have hpos : wheelNewScale p e ≠ 0 :=
        (lt_of_lt_of_le (by norm_num) (wheelNewScale_mem p e).1).ne'
      exact ⟨worldCoord_anchor _ _ _ _ hpos, worldCoord_anchor _ _ _ _ hpos⟩
  · intro p e hx hy hs hmx hmy hd
    have hn : wheelNewScale p e = 11 / 10 := by
      unfold wheelNewScale
      rw [if_pos hd, hs]
      norm_num
    have hne : wheelNewScale p e ≠ p.scale := by
      rw [hn, hs]
      norm_num
    rw [onWheel_of_ne p e hne]
    simp only [Panzoom.getTransform, hn, hx, hy, hs, hmx, hmy]
    norm_num

/-- An instance of C1: scale 2, translation (30, -40), pointer at (300, 200) in a
container at (10, 20), zooming out. -/
theorem C1_wheel_zoom_anchoring_witness :
    worldCoord
        (Panzoom.onWheel
          { scale := 2, translateX := 30, translateY := -40, isDragging := false,
            startX := 0, startY := 0, disablePan := false }
          { clientX := 310, clientY := 220, deltaY := 1,
            rect := { left := 10, top := 20, width := 800, height := 600 } }).translateX
        (Panzoom.onWheel
          { scale := 2, translateX := 30, translateY := -40, isDragging := false,
            startX := 0, startY := 0, disablePan := false }
          { clientX := 310, clientY := 220, deltaY := 1,
            rect := { left := 10, top := 20, width := 800, height := 600 } }).scale
        (310 - 10)
      = worldCoord 30 2 (310 - 10) :=
  (C1_wheel_zoom_anchoring.1
    { scale := 2, translateX := 30, translateY := -40, isDragging := false,
      startX := 0, startY := 0, disablePan := false }
    { clientX := 310, clientY := 220, deltaY := 1,
      rect := { left := 10, top := 20, width := 800, height := 600 } }
    (by norm_num) (by norm_num)).1


/-! ### Scale bounds -/

/-- C2. Scale clamp: from the initial state of the controller (scale 1), after any
finite sequence of wheel steps and double clicks, at any pointer positions and with
any `deltaY`, the scale lies in [0.1, 5.0]. -/
theorem C2_scale_clamp (win : Window) (ops : List ZoomOp) :
    1 / 10 ≤ (ops.foldl ZoomOp.apply (CanvasManager.new win).panzoom).scale
      ∧ (ops.foldl ZoomOp.apply (CanvasManager.new win).panzoom).scale ≤ 5 := by
  have key : ∀ (l : List ZoomOp) (p : Panzoom), 1 / 10 ≤ p.scale → p.scale ≤ 5 →
      1 / 10 ≤ (l.foldl ZoomOp.apply p).scale ∧ (l.foldl ZoomOp.apply p).scale ≤ 5 := by
    intro l
    induction l with
    | nil => intro p hlo hhi; exact ⟨hlo, hhi⟩
    | cons op rest ih =>
        intro p hlo hhi
        rw [List.foldl_cons]
        cases op with
        | wheel e => exact ih _ (onWheel_scale_mem p e hlo hhi).1 (onWheel_scale_mem p e hlo hhi).2
        | dblclick e =>
            exact ih _ (onDblClick_scale_mem p e hlo).1 (onDblClick_scale_mem p e hlo).2
  apply key
  · show (1 : ℚ) / 10 ≤ 1
    norm_num
  · show (1 : ℚ) ≤ 5
    norm_num

/-! ### What the handlers leave unchanged -/

theorem mutateAt_length {α : Type} (f : α → α) (i : Nat) (l : List α) :
    (mutateAt f i l).length = l.length := by
  induction l generalizing i with
  | nil => cases i <;> rfl
  | cons a l ih =>
      cases i with
      | zero => rfl
      | succ i => simp [mutateAt, ih]

theorem updateLoop_length (m : MinimapManager) (miniMap : RefMap) (rects : List RectEl)
    (minis : List MiniRect) :
    (m.updateLoop miniMap rects minis).length = minis.length := by
  induction rects generalizing minis with
  | nil => rfl
  | cons rect rest ih =>
      unfold MinimapManager.updateLoop
      split
      · rw [ih, mutateAt_length]
      · exact ih minis

theorem handleMouseDown_rectangles (s : CanvasManager) (t : Target) (e : MouseEvent) :
    (s.handleMouseDown t e).rectangles = s.rectangles := by
  unfold CanvasManager.handleMouseDown
  split_ifs <;> rfl

theorem handleMouseDown_minimap (s : CanvasManager) (t : Target) (e : MouseEvent) :
    (s.handleMouseDown t e).minimapInstance = s.minimapInstance := by
  unfold CanvasManager.handleMouseDown
  split_ifs <;> rfl

theorem handleMouseDown_panzoom (s : CanvasManager) (t : Target) (e : MouseEvent) :
    (s.handleMouseDown t e).panzoom = s.panzoom := by
  unfold CanvasManager.handleMouseDown
  split_ifs <;> rfl

theorem handleMouseDown_mode (s : CanvasManager) (t : Target) (e : MouseEvent) :
    (s.handleMouseDown t e).mode = s.mode := by
  unfold CanvasManager.handleMouseDown
  split_ifs <;> rfl

theorem handleMouseMove_rectangles (s : CanvasManager) (e : MouseEvent) :
    (s.handleMouseMove e).rectangles = s.rectangles := by
  unfold CanvasManager.handleMouseMove
  split <;> rfl

theorem handleMouseMove_minimap (s : CanvasManager) (e : MouseEvent) :
    (s.handleMouseMove e).minimapInstance = s.minimapInstance := by
  unfold CanvasManager.handleMouseMove
  split <;> rfl

theorem handleMouseMove_panzoom (s : CanvasManager) (e : MouseEvent) :
    (s.handleMouseMove e).panzoom = s.panzoom := by
  unfold CanvasManager.handleMouseMove
  split <;> rfl

theorem handleMouseMove_mode (s : CanvasManager) (e : MouseEvent) :
    (s.handleMouseMove e).mode = s.mode := by
  unfold CanvasManager.handleMouseMove
  split <;> rfl

theorem handleMouseUp_idle (s : CanvasManager) (now : Nat)
    (h : s.isDrawing = false ∨ s.currentRectangle = none) : s.handleMouseUp now = s := by
  unfold CanvasManager.handleMouseUp
  split
  · rename_i h1 h2
    rcases h with h | h
    · rw [h] at h1; cases h1
    · rw [h] at h2; cases h2
  · rfl

theorem handleMouseUp_commit (s : CanvasManager) (now : Nat) (cur : RectEl)
    (hd : s.isDrawing = true) (hc : s.currentRectangle = some cur)
    (hw : 0 < cur.width) (hh : 0 < cur.height) :
    s.handleMouseUp now =
      { s with
        isDrawing := false
        rectangles := s.rectangles ++
          [(createMinimapRectangle s.minimapInstance (committedRect s.mode cur) now).2]
        minimapInstance :=
          (createMinimapRectangle s.minimapInstance (committedRect s.mode cur) now).1
        currentRectangle := none } := by
  unfold CanvasManager.handleMouseUp committedRect
  rw [hd, hc]
  dsimp only
  rw [if_pos ⟨hw, hh⟩]

theorem handleMouseUp_discard (s : CanvasManager) (now : Nat) (cur : RectEl)
    (hd : s.isDrawing = true) (hc : s.currentRectangle = some cur)
    (hn : ¬ (0 < cur.width ∧ 0 < cur.height)) :
    s.handleMouseUp now = { s with isDrawing := false, currentRectangle := none } := by
  unfold CanvasManager.handleMouseUp
  rw [hd, hc]
  dsimp only
  rw [if_neg hn]

/-- The three ways `handleMouseUp` can go. -/
theorem handleMouseUp_cases (s : CanvasManager) (now : Nat) :
    s.handleMouseUp now = s
    ∨ (∃ cur, s.currentRectangle = some cur ∧ s.handleMouseUp now =
        { s with
          isDrawing := false
          rectangles := s.rectangles ++
            [(createMinimapRectangle s.minimapInstance (committedRect s.mode cur) now).2]
          minimapInstance :=
            (createMinimapRectangle s.minimapInstance (committedRect s.mode cur) now).1
          currentRectangle := none })
    ∨ s.handleMouseUp now = { s with isDrawing := false, currentRectangle := none } := by
  cases hd : s.isDrawing with
  | false => exact Or.inl (handleMouseUp_idle s now (Or.inl hd))
  | true =>
      cases hc : s.currentRectangle with
      | none => exact Or.inl (handleMouseUp_idle s now (Or.inr hc))
      | some cur =>
          by_cases hp : 0 < cur.width ∧ 0 < cur.height
          · exact Or.inr (Or.inl ⟨cur, rfl, handleMouseUp_commit s now cur hd hc hp.1 hp.2⟩)
          · exact Or.inr (Or.inr (handleMouseUp_discard s now cur hd hc hp))

theorem handleMouseUp_panzoom (s : CanvasManager) (now : Nat) :
    (s.handleMouseUp now).panzoom = s.panzoom := by
  rcases handleMouseUp_cases s now with h | ⟨cur, _, h⟩ | h <;> rw [h]

theorem handleMouseUp_mode (s : CanvasManager) (now : Nat) :
    (s.handleMouseUp now).mode = s.mode := by
  rcases handleMouseUp_cases s now with h | ⟨cur, _, h⟩ | h <;> rw [h]

theorem proxies_of_some (s : CanvasManager) (m : MinimapManager)
    (h : s.minimapInstance = some m) : proxies s = m.miniRectangles := by
  unfold proxies
  rw [h]

/-! ### The instance is set up and holds one proxy per rectangle -/

theorem inv_new (win : Window) : Inv (CanvasManager.new win) :=
  ⟨_, rfl, rfl, rfl, rfl⟩

theorem inv_of_eq (s s' : CanvasManager) (h : Inv s)
    (hr : s'.rectangles = s.rectangles) (hm : s'.minimapInstance = s.minimapInstance) :
    Inv s' := by
  obtain ⟨m, h1, h2, h3⟩ := h
  exact ⟨m, by rw [hm, h1], by rw [hr, h2], h3⟩

theorem inv_handleMouseUp (s : CanvasManager) (now : Nat) (h : Inv s) :
    Inv (s.handleMouseUp now) := by
  obtain ⟨m, h1, h2, h3⟩ := h
  rcases handleMouseUp_cases s now with h | ⟨cur, _, h⟩ | h <;> rw [h]
  · exact ⟨m, h1, h2, h3⟩
  · refine ⟨(m.createMinimapRectangle (committedRect s.mode cur) now).1, ?_, ?_, h3⟩
    · simp only [h1, createMinimapRectangle]
    · simp [MinimapManager.createMinimapRectangle, h2]
  · exact ⟨m, h1, h2, h3⟩

theorem inv_onDocumentMouseMove (s : CanvasManager) (e : MouseEvent) (h : Inv s) :
    Inv (s.onDocumentMouseMove e) :=
  inv_of_eq _ _ h (by rw [CanvasManager.onDocumentMouseMove, handleMouseMove_rectangles])
    (by rw [CanvasManager.onDocumentMouseMove, handleMouseMove_minimap])

theorem inv_setRectanglesDraggable (s : CanvasManager) (b : Bool) (h : Inv s) :
    Inv (s.setRectanglesDraggable b) := by
  obtain ⟨m, h1, h2, h3⟩ := h
  exact ⟨m, h1, by simp [CanvasManager.setRectanglesDraggable, h2], h3⟩

theorem inv_switchMode (s : CanvasManager) (h : Inv s) : Inv s.switchMode := by
  unfold CanvasManager.switchMode
  split_ifs
  · apply inv_setRectanglesDraggable
    refine inv_of_eq _ _
      (inv_onDocumentMouseMove _ _ (inv_onDocumentMouseMove { s with mode := Mode.create } _
        (inv_of_eq _ _ h rfl rfl))) rfl rfl
  · apply inv_setRectanglesDraggable
    exact inv_of_eq _ _ h rfl rfl

theorem inv_dragMoveListener (s : CanvasManager) (i : Nat) (dx dy : ℚ) (h : Inv s) :
    Inv (s.dragMoveListener i dx dy) := by
  obtain ⟨m, h1, h2, h3⟩ := h
  unfold CanvasManager.dragMoveListener
  rw [h1]
  refine ⟨_, rfl, ?_, h3⟩
  simp only [MinimapManager.updateMinimapRectangles, updateLoop_length, mutateAt_length, h2]

theorem inv_step (s : CanvasManager) (ev : Event) (h : Inv s) : Inv (step s ev) := by
  cases ev with
  | mouseDown t e =>
      exact inv_of_eq _ _ h (by rw [step, CanvasManager.onCanvasMouseDown, handleMouseDown_rectangles])
        (by rw [step, CanvasManager.onCanvasMouseDown, handleMouseDown_minimap])
  | mouseMove e => exact inv_onDocumentMouseMove s e h
  | mouseUp now => exact inv_handleMouseUp _ now (inv_of_eq _ _ h rfl rfl)
  | createBtnClick => exact inv_switchMode s h
  | wheel e => exact inv_of_eq _ _ h rfl rfl
  | dblclick e => exact inv_of_eq _ _ h rfl rfl
  | minimapClick e =>
      obtain ⟨m, h1, h2, h3⟩ := h
      refine ⟨m, ?_, ?_, h3⟩
      · simp only [step, CanvasManager.onMinimapClick, h1]
      · simp only [step, CanvasManager.onMinimapClick, h1, h2]
  | rectangleDragMove i dx dy =>
      simp only [step, CanvasManager.onRectangleDragMove]
      split
      · split_ifs
        · exact inv_dragMoveListener s i dx dy h
        · exact h
      · exact h

theorem inv_run (events : List Event) (s : CanvasManager) (h : Inv s) :
    Inv (run s events) := by
  induction events generalizing s with
  | nil => exact h
  | cons ev rest ih => exact ih _ (inv_step s ev h)

theorem inv_of_reachable (s : CanvasManager) (h : Reachable s) : Inv s := by
  obtain ⟨win, events, rfl⟩ := h
  exact inv_run events _ (inv_new win)

/-- C4. Proxy count invariant: in every state reached from a freshly constructed
`CanvasManager` by any sequence of pointer-down, pointer-move and pointer-up events,
mode switches, zooms, minimap clicks and rectangle drag-moves, the minimap has as many
mini-rectangles as the canvas has rectangles. -/
theorem C4_proxy_count (s : CanvasManager) (h : Reachable s) :
    (proxies s).length = s.rectangles.length := by
  obtain ⟨m, h1, h2, _⟩ := inv_of_reachable s h
  rw [proxies_of_some s m h1, h2]


/-! ### Drawing a rectangle -/

theorem handleMouseMove_idle (s : CanvasManager) (e : MouseEvent)
    (h : s.isDrawing = false ∨ s.currentRectangle = none) : s.handleMouseMove e = s := by
  unfold CanvasManager.handleMouseMove
  split
  · rename_i h1 h2
    rcases h with h | h
    · rw [h] at h1; cases h1
    · rw [h] at h2; cases h2
  · rfl

theorem handleMouseMove_drawing (s : CanvasManager) (e : MouseEvent) (cur : RectEl)
    (hd : s.isDrawing = true) (hc : s.currentRectangle = some cur) :
    s.handleMouseMove e =
      { s with
        currentRectangle :=
          some (spanRect cur s.rectangleStartX s.rectangleStartY
            (worldCoord s.panzoom.translateX s.panzoom.scale e.clientX)
            (worldCoord s.panzoom.translateY s.panzoom.scale e.clientY)) } := by
  unfold CanvasManager.handleMouseMove spanRect worldCoord Panzoom.getTransform
  rw [hd, hc]
  dsimp only
  by_cases hx : (e.clientX - s.panzoom.translateX) / s.panzoom.scale - s.rectangleStartX < 0
  · by_cases hy : (e.clientY - s.panzoom.translateY) / s.panzoom.scale - s.rectangleStartY < 0
    · rw [if_pos hx, if_pos hy, min_eq_right (by linarith), min_eq_right (by linarith)]
    · rw [if_pos hx, if_neg hy, min_eq_right (by linarith), min_eq_left (by linarith),
        abs_of_nonneg (not_lt.mp hy)]
  · by_cases hy : (e.clientY - s.panzoom.translateY) / s.panzoom.scale - s.rectangleStartY < 0
    · rw [if_neg hx, if_pos hy, min_eq_left (by linarith), min_eq_right (by linarith),
        abs_of_nonneg (not_lt.mp hx)]
    · rw [if_neg hx, if_neg hy, min_eq_left (by linarith), min_eq_left (by linarith),
        abs_of_nonneg (not_lt.mp hx), abs_of_nonneg (not_lt.mp hy)]


/-- C9. Draw-gesture geometry: while a rectangle is being drawn from the anchor
`(sx, sy)`, `handleMouseMove` with the pointer over the world point `(x, y)` sets the
rectangle to left = min(sx, x), top = min(sy, y), width = |x - sx|, height = |y - sy|;
width and height are not negative and the rectangle spans the anchor and the pointer.
Drawing from world (50,50) to (150,120) in a fresh application gives the rectangle
{left 50, top 50, width 100, height 70} and the proxy {0.5%, 0.5%, 1%, 0.7%}. -/
theorem C9_draw_geometry :
    (∀ (s : CanvasManager) (e : MouseEvent) (cur : RectEl),
      s.isDrawing = true → s.currentRectangle = some cur →
      ∃ r, (s.handleMouseMove e).currentRectangle = some r
        ∧ r.left = min s.rectangleStartX
            (worldCoord s.panzoom.translateX s.panzoom.scale e.clientX)
        ∧ r.top = min s.rectangleStartY
            (worldCoord s.panzoom.translateY s.panzoom.scale e.clientY)
        ∧ r.width = |worldCoord s.panzoom.translateX s.panzoom.scale e.clientX
            - s.rectangleStartX|
        ∧ r.height = |worldCoord s.panzoom.translateY s.panzoom.scale e.clientY
            - s.rectangleStartY|
        ∧ 0 ≤ r.width ∧ 0 ≤ r.height
        ∧ r.left ≤ s.rectangleStartX ∧ s.rectangleStartX ≤ r.left + r.width
        ∧ r.left ≤ worldCoord s.panzoom.translateX s.panzoom.scale e.clientX
        ∧ worldCoord s.panzoom.translateX s.panzoom.scale e.clientX ≤ r.left + r.width
        ∧ r.top ≤ s.rectangleStartY ∧ s.rectangleStartY ≤ r.top + r.height
        ∧ r.top ≤ worldCoord s.panzoom.translateY s.panzoom.scale e.clientY
        ∧ worldCoord s.panzoom.translateY s.panzoom.scale e.clientY ≤ r.top + r.height
        ∧ (s.handleMouseMove e).rectangleStartX = s.rectangleStartX
        ∧ (s.handleMouseMove e).rectangleStartY = s.rectangleStartY)
    ∧ ∀ (win : Window) (now : Nat),
        (run (CanvasManager.new win)
          [Event.createBtnClick,
           Event.mouseDown Target.background
             { clientX := 50 + (win.innerWidth - 10000) / 2,
               clientY := 50 + (win.innerHeight - 10000) / 2 },
           Event.mouseMove
             { clientX := 150 + (win.innerWidth - 10000) / 2,
               clientY := 120 + (win.innerHeight - 10000) / 2 },
           Event.mouseUp now]).rectangles
          = [{ left := 50, top := 50, width := 100, height := 70, id := some now,
               dragListener := true, dragEnabled := true }]
        ∧ proxies (run (CanvasManager.new win)
          [Event.createBtnClick,
           Event.mouseDown Target.background
             { clientX := 50 + (win.innerWidth - 10000) / 2,
               clientY := 50 + (win.innerHeight - 10000) / 2 },
           Event.mouseMove
             { clientX := 150 + (win.innerWidth - 10000) / 2,
               clientY := 120 + (win.innerHeight - 10000) / 2 },
           Event.mouseUp now])
          = [{ forRectangle := now, left := 1 / 2, top := 1 / 2, width := 1,
               height := 7 / 10 }] := by
  refine ⟨?_, ?_⟩
  · intro s e cur hd hc
    rw [handleMouseMove_drawing s e cur hd hc]
    refine ⟨_, rfl, rfl, rfl, rfl, rfl, abs_nonneg _, abs_nonneg _, min_le_left _ _, ?_,
      min_le_right _ _, ?_, min_le_left _ _, ?_, min_le_right _ _, ?_, rfl, rfl⟩ <;>
      simp only [spanRect]
    · rcases le_total s.rectangleStartX
        (worldCoord s.panzoom.translateX s.panzoom.scale e.clientX) with h | h
      · rw [min_eq_left h]; linarith [abs_nonneg
          (worldCoord s.panzoom.translateX s.panzoom.scale e.clientX - s.rectangleStartX)]
      · rw [min_eq_right h, abs_of_nonpos (by linarith)]; linarith
    · rcases le_total s.rectangleStartX
        (worldCoord s.panzoom.translateX s.panzoom.scale e.clientX) with h | h
      · rw [min_eq_left h, abs_of_nonneg (by linarith)]; linarith
      · rw [min_eq_right h]; linarith [abs_nonneg
          (worldCoord s.panzoom.translateX s.panzoom.scale e.clientX - s.rectangleStartX)]
    · rcases le_total s.rectangleStartY
        (worldCoord s.panzoom.translateY s.panzoom.scale e.clientY) with h | h
      · rw [min_eq_left h]; linarith [abs_nonneg
          (worldCoord s.panzoom.translateY s.panzoom.scale e.clientY - s.rectangleStartY)]
      · rw [min_eq_right h, abs_of_nonpos (by linarith)]; linarith
    · rcases le_total s.rectangleStartY
        (worldCoord s.panzoom.translateY s.panzoom.scale e.clientY) with h | h
      · rw [min_eq_left h, abs_of_nonneg (by linarith)]; linarith
      · rw [min_eq_right h]; linarith [abs_nonneg
          (worldCoord s.panzoom.translateY s.panzoom.scale e.clientY - s.rectangleStartY)]
  · intro win now
    constructor
    · simp [run, step, CanvasManager.new, CanvasManager.centerCanvas, Panzoom.create,
        Panzoom.pan, setupMinimap, CanvasManager.switchMode, CanvasManager.onDocumentMouseMove,
        CanvasManager.handleMouseMove, Panzoom.onMouseMove, Panzoom.setOptions,
        CanvasManager.setRectanglesDraggable, CanvasManager.onCanvasMouseDown,
        CanvasManager.handleMouseDown, Panzoom.onMouseDown, Panzoom.getTransform,
        CanvasManager.onDocumentMouseUp, CanvasManager.handleMouseUp, Panzoom.onMouseUp,
        CanvasManager.makeRectangleDraggable, createMinimapRectangle,
        MinimapManager.createMinimapRectangle, MinimapManager.updateMinimapRectanglePosition]
      norm_num
    · simp [proxies, run, step, CanvasManager.new, CanvasManager.centerCanvas, Panzoom.create,
        Panzoom.pan, setupMinimap, CanvasManager.switchMode, CanvasManager.onDocumentMouseMove,
        CanvasManager.handleMouseMove, Panzoom.onMouseMove, Panzoom.setOptions,
        CanvasManager.setRectanglesDraggable, CanvasManager.onCanvasMouseDown,
        CanvasManager.handleMouseDown, Panzoom.onMouseDown, Panzoom.getTransform,
        CanvasManager.onDocumentMouseUp, CanvasManager.handleMouseUp, Panzoom.onMouseUp,
        CanvasManager.makeRectangleDraggable, createMinimapRectangle,
        MinimapManager.createMinimapRectangle, MinimapManager.updateMinimapRectanglePosition]
      norm_num


/-! ### A draw gesture -/

theorem run_append (s : CanvasManager) (l₁ l₂ : List Event) :
    run s (l₁ ++ l₂) = run (run s l₁) l₂ := by
  unfold run
  rw [List.foldl_append]

theorem drawing_nil (s : CanvasManager) (down : MouseEvent) :
    drawing s down [] = s.onCanvasMouseDown Target.background down := rfl

theorem drawing_snoc (s : CanvasManager) (down : MouseEvent) (moves : List MouseEvent)
    (e : MouseEvent) :
    drawing s down (moves ++ [e]) = (drawing s down moves).onDocumentMouseMove e := by
  unfold drawing
  rw [List.map_append, ← List.cons_append, run_append]
  rfl

theorem lastPosition_nil (down : MouseEvent) : lastPosition down [] = down := rfl

theorem lastPosition_snoc (down : MouseEvent) (moves : List MouseEvent) (e : MouseEvent) :
    lastPosition down (moves ++ [e]) = e := by
  unfold lastPosition
  rw [List.getLast?_concat]
  rfl

theorem onDocumentMouseMove_drawing (s : CanvasManager) (e : MouseEvent) (cur : RectEl)
    (hd : s.isDrawing = true) (hc : s.currentRectangle = some cur) :
    s.onDocumentMouseMove e =
      { s with
        panzoom := s.panzoom.onMouseMove e
        currentRectangle :=
          some (spanRect cur s.rectangleStartX s.rectangleStartY
            (worldCoord (s.panzoom.onMouseMove e).translateX (s.panzoom.onMouseMove e).scale
              e.clientX)
            (worldCoord (s.panzoom.onMouseMove e).translateY (s.panzoom.onMouseMove e).scale
              e.clientY)) } := by
  unfold CanvasManager.onDocumentMouseMove
  rw [handleMouseMove_drawing { s with panzoom := s.panzoom.onMouseMove e } e cur hd hc]

theorem onMouseDown_create (p : Panzoom) (e : MouseEvent) :
    p.onMouseDown Mode.create e = p := by
  unfold Panzoom.onMouseDown
  rw [if_neg]
  rintro ⟨h, _⟩
  cases h

theorem onCanvasMouseDown_create (s : CanvasManager) (down : MouseEvent)
    (hm : s.mode = Mode.create) :
    s.onCanvasMouseDown Target.background down =
      { s with
        isDrawing := true
        rectangleStartX := worldCoord s.panzoom.translateX s.panzoom.scale down.clientX
        rectangleStartY := worldCoord s.panzoom.translateY s.panzoom.scale down.clientY
        currentRectangle := some
          { left := worldCoord s.panzoom.translateX s.panzoom.scale down.clientX
            top := worldCoord s.panzoom.translateY s.panzoom.scale down.clientY
            width := 0, height := 0, id := none, dragListener := false, dragEnabled := false }
        creating := s.creating ++ s.currentRectangle.toList } := by
  unfold CanvasManager.onCanvasMouseDown CanvasManager.handleMouseDown
  rw [hm, onMouseDown_create]
  simp only [ne_eq, not_true_eq_false, if_false, Panzoom.getTransform, worldCoord]
  rw [if_neg (by decide)]

/-- What holds of the state during a draw gesture started in create mode. -/
theorem drawing_spec (s : CanvasManager) (down : MouseEvent) (moves : List MouseEvent)
    (hm : s.mode = Mode.create) :
    (drawing s down moves).isDrawing = true
    ∧ (drawing s down moves).mode = Mode.create
    ∧ (drawing s down moves).rectangles = s.rectangles
    ∧ (drawing s down moves).minimapInstance = s.minimapInstance
    ∧ (drawing s down moves).creating = s.creating ++ s.currentRectangle.toList
    ∧ (drawing s down moves).rectangleStartX
        = worldCoord s.panzoom.translateX s.panzoom.scale down.clientX
    ∧ (drawing s down moves).rectangleStartY
        = worldCoord s.panzoom.translateY s.panzoom.scale down.clientY
    ∧ ∃ cur, (drawing s down moves).currentRectangle = some cur
        ∧ cur.id = none ∧ cur.dragListener = false ∧ cur.dragEnabled = false
        ∧ cur.width = |worldCoord (drawing s down moves).panzoom.translateX
              (drawing s down moves).panzoom.scale (lastPosition down moves).clientX
            - (drawing s down moves).rectangleStartX|
        ∧ cur.height = |worldCoord (drawing s down moves).panzoom.translateY
              (drawing s down moves).panzoom.scale (lastPosition down moves).clientY
            - (drawing s down moves).rectangleStartY| := by
  induction moves using List.reverseRecOn with
  | nil =>
      rw [drawing_nil, onCanvasMouseDown_create s down hm, lastPosition_nil]
      refine ⟨rfl, hm, rfl, rfl, rfl, rfl, rfl, _, rfl, rfl, rfl, rfl, ?_, ?_⟩ <;> simp
  | append_singleton ms e ih =>
      obtain ⟨h1, h2, h3, h4, h5, h6, h7, cur, h8, h9, h10, h11, _, _⟩ := ih
      rw [drawing_snoc, lastPosition_snoc, onDocumentMouseMove_drawing _ e cur h1 h8]
      exact ⟨h1, h2, h3, h4, h5, h6, h7, _, rfl, h9, h10, h11, rfl, rfl⟩

theorem onMouseMove_of_not_dragging (p : Panzoom) (e : MouseEvent)
    (h : p.isDragging = false) : p.onMouseMove e = p := by
  unfold Panzoom.onMouseMove
  rw [h]
  rfl

/-- While no pan-drag is in progress, a draw gesture leaves the controller as it was. -/
theorem drawing_panzoom (s : CanvasManager) (down : MouseEvent) (moves : List MouseEvent)
    (hm : s.mode = Mode.create) (hd : s.panzoom.isDragging = false) :
    (drawing s down moves).panzoom = s.panzoom := by
  induction moves using List.reverseRecOn with
  | nil => rw [drawing_nil, onCanvasMouseDown_create s down hm]
  | append_singleton ms e ih =>
      rw [drawing_snoc, CanvasManager.onDocumentMouseMove, handleMouseMove_panzoom]
      show (drawing s down ms).panzoom.onMouseMove e = s.panzoom
      rw [ih, onMouseMove_of_not_dragging _ _ hd]


theorem drawGesture_eq (s : CanvasManager) (down : MouseEvent) (moves : List MouseEvent)
    (now : Nat) :
    drawGesture s down moves now = (drawing s down moves).onDocumentMouseUp now :=
  rfl

theorem onDocumentMouseUp_commit (s : CanvasManager) (now : Nat) (cur : RectEl)
    (hd : s.isDrawing = true) (hc : s.currentRectangle = some cur)
    (hw : 0 < cur.width) (hh : 0 < cur.height) :
    s.onDocumentMouseUp now =
      { s with
        panzoom := s.panzoom.onMouseUp
        isDrawing := false
        rectangles := s.rectangles ++
          [(createMinimapRectangle s.minimapInstance (committedRect s.mode cur) now).2]
        minimapInstance :=
          (createMinimapRectangle s.minimapInstance (committedRect s.mode cur) now).1
        currentRectangle := none } := by
  unfold CanvasManager.onDocumentMouseUp
  rw [handleMouseUp_commit { s with panzoom := s.panzoom.onMouseUp } now cur hd hc hw hh]

theorem onDocumentMouseUp_discard (s : CanvasManager) (now : Nat) (cur : RectEl)
    (hd : s.isDrawing = true) (hc : s.currentRectangle = some cur)
    (hn : ¬ (0 < cur.width ∧ 0 < cur.height)) :
    s.onDocumentMouseUp now =
      { s with panzoom := s.panzoom.onMouseUp, isDrawing := false, currentRectangle := none } := by
  unfold CanvasManager.onDocumentMouseUp
  rw [handleMouseUp_discard { s with panzoom := s.panzoom.onMouseUp } now cur hd hc hn]

/-- A draw gesture in create mode whose in-progress rectangle ends with positive width
and height appends the rectangle and its proxy. -/
theorem drawGesture_commit (s : CanvasManager) (down : MouseEvent) (moves : List MouseEvent)
    (now : Nat) (cur : RectEl) (hi : Inv s) (hm : s.mode = Mode.create)
    (hc : (drawing s down moves).currentRectangle = some cur)
    (hw : 0 < cur.width) (hh : 0 < cur.height) :
    (drawGesture s down moves now).rectangles = s.rectangles ++
        [{ cur with id := some now, dragListener := true, dragEnabled := true }]
    ∧ proxies (drawGesture s down moves now) = proxies s ++
        [{ forRectangle := now, left := cur.left / 10000 * 100, top := cur.top / 10000 * 100,
           width := cur.width / 10000 * 100, height := cur.height / 10000 * 100 }]
    ∧ (drawGesture s down moves now).currentRectangle = none
    ∧ (drawGesture s down moves now).creating = (drawing s down moves).creating := by
  obtain ⟨m, hm1, _, hm3, hm4⟩ := hi
  obtain ⟨h1, h2, h3, h4, _, _, _, _⟩ := drawing_spec s down moves hm
  rw [drawGesture_eq, onDocumentMouseUp_commit _ now cur h1 hc hw hh]
  simp only [proxies, h2, h3, h4, hm1, committedRect, createMinimapRectangle,
    MinimapManager.createMinimapRectangle, MinimapManager.updateMinimapRectanglePosition,
    CanvasManager.makeRectangleDraggable, hm3, hm4, if_true, and_self]

/-- A draw gesture in create mode whose in-progress rectangle ends with a width or a
height that is not positive removes the rectangle and adds nothing. -/
theorem drawGesture_discard (s : CanvasManager) (down : MouseEvent) (moves : List MouseEvent)
    (now : Nat) (cur : RectEl) (hm : s.mode = Mode.create)
    (hc : (drawing s down moves).currentRectangle = some cur)
    (hn : ¬ (0 < cur.width ∧ 0 < cur.height)) :
    (drawGesture s down moves now).rectangles = s.rectangles
    ∧ proxies (drawGesture s down moves now) = proxies s
    ∧ (drawGesture s down moves now).currentRectangle = none
    ∧ (drawGesture s down moves now).creating = (drawing s down moves).creating := by
  obtain ⟨h1, _, h3, h4, _, _, _, _⟩ := drawing_spec s down moves hm
  rw [drawGesture_eq, onDocumentMouseUp_discard _ now cur h1 hc hn]
  simp only [proxies, h3, h4, and_self]


/-- What the pointer-up of a draw gesture does, for a gesture in create mode (pointer-down
on the background, any pointer-moves, pointer-up) from a reachable state, with `cur` the
in-progress rectangle at release: if its width and height are both positive it becomes a
rectangle and gets a proxy, otherwise it is removed and no rectangle or proxy is added;
so it is committed if and only if both are positive.  Nothing is committed when the world
point under the pointer at release is the anchor, nor, while no pan-drag is in progress,
when the last pointer position is the position of the pointer-down. -/
theorem pointer_up_commits_or_discards (s : CanvasManager) (down : MouseEvent)
    (moves : List MouseEvent) (now : Nat) (hr : Reachable s) (hm : s.mode = Mode.create) :
    ∃ cur, (drawing s down moves).currentRectangle = some cur
      ∧ (0 < cur.width ∧ 0 < cur.height →
          (drawGesture s down moves now).rectangles = s.rectangles ++
              [{ cur with id := some now, dragListener := true, dragEnabled := true }]
          ∧ proxies (drawGesture s down moves now) = proxies s ++
              [{ forRectangle := now, left := cur.left / 10000 * 100,
                 top := cur.top / 10000 * 100, width := cur.width / 10000 * 100,
                 height := cur.height / 10000 * 100 }])
      ∧ (¬ (0 < cur.width ∧ 0 < cur.height) →
          (drawGesture s down moves now).rectangles = s.rectangles
          ∧ proxies (drawGesture s down moves now) = proxies s)
      ∧ (0 < cur.width ∧ 0 < cur.height ↔
          (drawGesture s down moves now).rectangles.length = s.rectangles.length + 1)
      ∧ (0 < cur.width ∧ 0 < cur.height ↔
          (proxies (drawGesture s down moves now)).length = (proxies s).length + 1)
      ∧ (drawGesture s down moves now).currentRectangle = none
      ∧ (drawGesture s down moves now).creating = (drawing s down moves).creating
      ∧ (worldCoord (drawing s down moves).panzoom.translateX
            (drawing s down moves).panzoom.scale (lastPosition down moves).clientX
            = (drawing s down moves).rectangleStartX
          ∧ worldCoord (drawing s down moves).panzoom.translateY
            (drawing s down moves).panzoom.scale (lastPosition down moves).clientY
            = (drawing s down moves).rectangleStartY →
          (drawGesture s down moves now).rectangles = s.rectangles
          ∧ proxies (drawGesture s down moves now) = proxies s)
      ∧ (s.panzoom.isDragging = false → lastPosition down moves = down →
          (drawGesture s down moves now).rectangles = s.rectangles
          ∧ proxies (drawGesture s down moves now) = proxies s) := by
  have hi := inv_of_reachable s hr
  obtain ⟨_, _, _, _, _, hsx, hsy, cur, hc, _, _, _, hcw, hch⟩ := drawing_spec s down moves hm
  have hzero : cur.width = 0 →
      (drawGesture s down moves now).rectangles = s.rectangles
      ∧ proxies (drawGesture s down moves now) = proxies s := by
    intro h0
    have hn : ¬ (0 < cur.width ∧ 0 < cur.height) := by
      rw [h0]
      exact fun h => lt_irrefl _ h.1
    exact ⟨(drawGesture_discard s down moves now cur hm hc hn).1,
      (drawGesture_discard s down moves now cur hm hc hn).2.1⟩
  refine ⟨cur, hc, ?_, ?_, ?_, ?_, ?_, ?_, ?_, ?_⟩
  · intro hp
    exact ⟨(drawGesture_commit s down moves now cur hi hm hc hp.1 hp.2).1,
      (drawGesture_commit s down moves now cur hi hm hc hp.1 hp.2).2.1⟩
  · intro hn
    exact ⟨(drawGesture_discard s down moves now cur hm hc hn).1,
      (drawGesture_discard s down moves now cur hm hc hn).2.1⟩
  · by_cases hp : 0 < cur.width ∧ 0 < cur.height
    · rw [(drawGesture_commit s down moves now cur hi hm hc hp.1 hp.2).1]
      simp [hp]
    · rw [(drawGesture_discard s down moves now cur hm hc hp).1]
      simp [hp]
  · by_cases hp : 0 < cur.width ∧ 0 < cur.height
    · rw [(drawGesture_commit s down moves now cur hi hm hc hp.1 hp.2).2.1]
      simp [hp]
    · rw [(drawGesture_discard s down moves now cur hm hc hp).2.1]
      simp [hp]
  · by_cases hp : 0 < cur.width ∧ 0 < cur.height
    · exact (drawGesture_commit s down moves now cur hi hm hc hp.1 hp.2).2.2.1
    · exact (drawGesture_discard s down moves now cur hm hc hp).2.2.1
  · by_cases hp : 0 < cur.width ∧ 0 < cur.height
    · exact (drawGesture_commit s down moves now cur hi hm hc hp.1 hp.2).2.2.2
    · exact (drawGesture_discard s down moves now cur hm hc hp).2.2.2
  · rintro ⟨hx, _⟩
    apply hzero
    rw [hcw, hx, sub_self, abs_zero]
  · intro hd hl
    apply hzero
    rw [hcw, hsx, drawing_panzoom s down moves hm hd, hl, sub_self, abs_zero]


/-! ### Recentring and double-click zoom -/

/-- C7. Click-to-recenter: for a scale in [0.1, 5.0], a click on the minimap background
at the fractions `(px, py)` of the minimap leaves the scale unchanged and sets the
translation to (innerWidth/2 - px*canvasWidth*scale, innerHeight/2 - py*canvasHeight*scale),
so that the world point under the centre of the window is (px*canvasWidth, py*canvasHeight). -/
theorem C7_click_to_recenter (m : MinimapManager) (p : Panzoom) (e : MinimapClickEvent)
    (ht : e.targetIsMinimap = true) (hlo : 1 / 10 ≤ p.scale) (hhi : p.scale ≤ 5) :
    (m.handleMinimapClick p e).scale = p.scale
    ∧ (m.handleMinimapClick p e).translateX
        = e.win.innerWidth / 2 - (e.clientX - e.rect.left) / e.rect.width * m.canvasWidth * p.scale
    ∧ (m.handleMinimapClick p e).translateY
        = e.win.innerHeight / 2
          - (e.clientY - e.rect.top) / e.rect.height * m.canvasHeight * p.scale
    ∧ worldCoord (m.handleMinimapClick p e).translateX (m.handleMinimapClick p e).scale
        (e.win.innerWidth / 2) = (e.clientX - e.rect.left) / e.rect.width * m.canvasWidth
    ∧ worldCoord (m.handleMinimapClick p e).translateY (m.handleMinimapClick p e).scale
        (e.win.innerHeight / 2) = (e.clientY - e.rect.top) / e.rect.height * m.canvasHeight := by
  have hs : p.scale ≠ 0 := (lt_of_lt_of_le (by norm_num) hlo).ne'
  have hle : p.scale ≤ 5 := hhi
  unfold MinimapManager.handleMinimapClick
  rw [ht]
  simp only [Bool.true_eq_false, if_false, Panzoom.pan, Panzoom.getTransform, worldCoord,
    sub_sub_cancel]
  exact ⟨trivial, trivial, trivial, mul_div_cancel_right₀ _ hs, mul_div_cancel_right₀ _ hs⟩

/-- C8. Double-click zoom: for a scale `s` in [0.1, 5.0] and any pointer position, after
the double-click listener the scale is min(5, 2*s) and the world point under the pointer
is the same as before. -/
theorem C8_dblclick_zoom (p : Panzoom) (e : DblClickEvent)
    (hlo : 1 / 10 ≤ p.scale) (hhi : p.scale ≤ 5) :
    (p.onDblClick e).scale = min 5 (2 * p.scale)
    ∧ worldCoord (p.onDblClick e).translateX (p.onDblClick e).scale (e.clientX - e.rect.left)
        = worldCoord p.translateX p.scale (e.clientX - e.rect.left)
    ∧ worldCoord (p.onDblClick e).translateY (p.onDblClick e).scale (e.clientY - e.rect.top)
        = worldCoord p.translateY p.scale (e.clientY - e.rect.top) := by
  have hle : p.scale ≤ 5 := hhi
  have hpos : min 5 (p.scale * 2) ≠ 0 :=
    (lt_min (by norm_num : (0 : ℚ) < 5) (by linarith : (0 : ℚ) < p.scale * 2)).ne'
  refine ⟨?_, ?_, ?_⟩
  · rw [onDblClick_scale, mul_comm]
  · exact worldCoord_anchor _ _ _ _ hpos
  · exact worldCoord_anchor _ _ _ _ hpos


/-! ### Unfolding the loops on explicit lists -/

theorem mutateAt_zero_cons {α : Type} (f : α → α) (a : α) (l : List α) :
    mutateAt f 0 (a :: l) = f a :: l := rfl

theorem mutateAt_one_cons {α : Type} (f : α → α) (a b : α) (l : List α) :
    mutateAt f 1 (a :: b :: l) = a :: f b :: l := rfl

theorem buildMiniMap_nil (i : Nat) (m : RefMap) : buildMiniMap [] i m = m := rfl

theorem buildMiniMap_cons (miniRect : MiniRect) (rest : List MiniRect) (i : Nat) (m : RefMap) :
    buildMiniMap (miniRect :: rest) i m
      = buildMiniMap rest (i + 1) (fun k => if k = miniRect.forRectangle then some i else m k) :=
  rfl

theorem updateLoop_nil (m : MinimapManager) (miniMap : RefMap) (minis : List MiniRect) :
    m.updateLoop miniMap [] minis = minis := rfl

theorem updateLoop_cons_some (m : MinimapManager) (miniMap : RefMap) (rect : RectEl)
    (rest : List RectEl) (minis : List MiniRect) (k j : Nat)
    (hk : rect.id = some k) (hj : miniMap k = some j) :
    m.updateLoop miniMap (rect :: rest) minis
      = m.updateLoop miniMap rest
          (mutateAt (fun miniRect => m.updateMinimapRectanglePosition miniRect rect) j minis) := by
  rw [MinimapManager.updateLoop]
  simp only [hk, Option.some_bind, hj]

theorem updateLoop_cons_none (m : MinimapManager) (miniMap : RefMap) (rect : RectEl)
    (rest : List RectEl) (minis : List MiniRect)
    (h : rect.id.bind miniMap = none) :
    m.updateLoop miniMap (rect :: rest) minis = m.updateLoop miniMap rest minis := by
  rw [MinimapManager.updateLoop]
  simp only [h]

/-! ### The projection when identifiers are pairwise distinct -/

theorem buildMiniMap_of_not_mem (minis : List MiniRect) (i : Nat) (m : RefMap) (k : Nat)
    (h : k ∉ minis.map (fun miniRect => miniRect.forRectangle)) :
    buildMiniMap minis i m k = m k := by
  induction minis generalizing i m with
  | nil => rfl
  | cons a rest ih =>
      rw [List.map_cons, List.mem_cons, not_or] at h
      rw [buildMiniMap_cons, ih _ _ h.2]
      exact if_neg h.1

/-- With pairwise distinct identifiers the map sends the identifier of the j-th
mini-rectangle to the reference j. -/
theorem buildMiniMap_get (minis : List MiniRect) (i : Nat) (m : RefMap)
    (hn : (minis.map (fun miniRect => miniRect.forRectangle)).Nodup)
    (j : Nat) (miniRect : MiniRect) (hj : minis.get? j = some miniRect) :
    buildMiniMap minis i m miniRect.forRectangle = some (i + j) := by
  induction minis generalizing i m j with
  | nil => cases hj
  | cons a rest ih =>
      rw [List.map_cons, List.nodup_cons] at hn
      rw [buildMiniMap_cons]
      cases j with
      | zero =>
          simp only [List.get?] at hj
          cases hj
          rw [buildMiniMap_of_not_mem _ _ _ _ hn.1]
          simp
      | succ j =>
          simp only [List.get?] at hj
          rw [ih _ _ hn.2 j hj]
          congr 1
          omega

theorem mutateAt_append_length {α : Type} (f : α → α) (pre : List α) (a : α) (suf : List α) :
    mutateAt f pre.length (pre ++ a :: suf) = pre ++ f a :: suf := by
  induction pre with
  | nil => rfl
  | cons b pre ih =>
      show b :: mutateAt f pre.length (pre ++ a :: suf) = b :: (pre ++ f a :: suf)
      rw [ih]

/-- The loop over the rectangles, when the rectangles still to visit are linked to the
mini-rectangles `suf` and the map sends their identifiers to their own references. -/
theorem updateLoop_aligned (m : MinimapManager) (miniMap : RefMap) (rs : List RectEl)
    (pre suf : List MiniRect) (hl : Linked suf rs)
    (hmap : ∀ j miniRect, suf.get? j = some miniRect →
      miniMap miniRect.forRectangle = some (pre.length + j)) :
    m.updateLoop miniMap rs (pre ++ suf)
      = pre ++ List.zipWith (fun miniRect rect =>
          m.updateMinimapRectanglePosition miniRect rect) suf rs := by
  induction rs generalizing pre suf with
  | nil =>
      cases suf with
      | nil => rfl
      | cons a suf => simp [Linked] at hl
  | cons r rs ih =>
      cases suf with
      | nil => simp [Linked] at hl
      | cons a suf =>
          unfold Linked at hl
          rw [List.map_cons, List.map_cons, List.cons.injEq] at hl
          have h0 := hmap 0 a rfl
          rw [updateLoop_cons_some m miniMap r rs _ a.forRectangle pre.length hl.1 h0,
            mutateAt_append_length]
          have := ih (pre ++ [m.updateMinimapRectanglePosition a r]) suf hl.2
            (by
              intro j miniRect hj
              rw [hmap (j + 1) miniRect hj, List.length_append]
              congr 1
              simp only [List.length_singleton]
              omega)
          rw [List.append_assoc, List.singleton_append] at this
          rw [this, List.zipWith_cons_cons, List.append_assoc, List.singleton_append]

/-- When the identifiers of the mini-rectangles are pairwise distinct and each rectangle
carries the identifier of its mini-rectangle, `updateMinimapRectangles` gives every
mini-rectangle the percentages of its rectangle. -/
theorem updateMinimapRectangles_of_nodup (m : MinimapManager) (rects : List RectEl)
    (hl : Linked m.miniRectangles rects)
    (hn : (m.miniRectangles.map (fun miniRect => miniRect.forRectangle)).Nodup) :
    (m.updateMinimapRectangles rects).miniRectangles
      = List.zipWith (fun miniRect rect =>
          { forRectangle := miniRect.forRectangle
            left := rect.left / m.canvasWidth * 100
            top := rect.top / m.canvasHeight * 100
            width := rect.width / m.canvasWidth * 100
            height := rect.height / m.canvasHeight * 100 }) m.miniRectangles rects := by
  have h := updateLoop_aligned m (buildMiniMap m.miniRectangles 0 (fun _ => none)) rects []
    m.miniRectangles hl
    (by
      intro j miniRect hj
      rw [buildMiniMap_get _ _ _ hn j miniRect hj]
      rfl)
  rw [List.nil_append, List.nil_append] at h
  exact h


/-! ### Rectangles and proxies stay linked; identifiers come from the clock -/

theorem mutateAt_map {α β : Type} (f : α → α) (g : α → β) (hg : ∀ a, g (f a) = g a)
    (i : Nat) (l : List α) : (mutateAt f i l).map g = l.map g := by
  induction l generalizing i with
  | nil => cases i <;> rfl
  | cons a l ih =>
      cases i with
      | zero => simp [mutateAt, hg]
      | succ i => simp [mutateAt, ih]

theorem updateLoop_forRectangle (m : MinimapManager) (miniMap : RefMap) (rects : List RectEl)
    (minis : List MiniRect) :
    (m.updateLoop miniMap rects minis).map (fun miniRect => miniRect.forRectangle)
      = minis.map (fun miniRect => miniRect.forRectangle) := by
  induction rects generalizing minis with
  | nil => rfl
  | cons rect rest ih =>
      unfold MinimapManager.updateLoop
      split
      · rw [ih]
        apply mutateAt_map
        intro a
        rfl
      · exact ih minis

theorem linked_iff_ids (minis : List MiniRect) (rects : List RectEl) :
    Linked minis rects ↔
      rects.map (fun r => r.id)
        = (minis.map (fun miniRect => miniRect.forRectangle)).map some := by
  unfold Linked
  rw [List.map_map]
  rfl

/-- What one event does to the rectangles' identifiers and to the proxies' identifiers:
nothing, or a pointer-up appends its clock reading to both. -/
theorem step_ids (s : CanvasManager) (ev : Event) (hi : Inv s) :
    ((step s ev).rectangles.map (fun r => r.id) = s.rectangles.map (fun r => r.id)
      ∧ proxyIds (step s ev) = proxyIds s)
    ∨ ∃ now, ev = Event.mouseUp now
      ∧ (step s ev).rectangles.map (fun r => r.id)
          = s.rectangles.map (fun r => r.id) ++ [some now]
      ∧ proxyIds (step s ev) = proxyIds s ++ [now] := by
  obtain ⟨m, h1, _, _⟩ := hi
  have same : ∀ s' : CanvasManager, s'.rectangles = s.rectangles →
      s'.minimapInstance = s.minimapInstance →
      s'.rectangles.map (fun r => r.id) = s.rectangles.map (fun r => r.id)
        ∧ proxyIds s' = proxyIds s := by
    intro s' hr hm
    exact ⟨by rw [hr], by unfold proxyIds proxies; rw [hm]⟩
  have hswitch : ∀ (t : CanvasManager) (b : Bool), t.rectangles = s.rectangles →
      t.minimapInstance = s.minimapInstance →
      (t.setRectanglesDraggable b).rectangles.map (fun r => r.id)
          = s.rectangles.map (fun r => r.id)
        ∧ proxyIds (t.setRectanglesDraggable b) = proxyIds s := by
    intro t b hr hm
    refine ⟨?_, ?_⟩
    · simp only [CanvasManager.setRectanglesDraggable, List.map_map, hr]
      rfl
    · unfold proxyIds proxies
      simp only [CanvasManager.setRectanglesDraggable, hm]
  cases ev with
  | mouseDown t e =>
      exact Or.inl (same _ (by rw [step, CanvasManager.onCanvasMouseDown,
        handleMouseDown_rectangles]) (by rw [step, CanvasManager.onCanvasMouseDown,
        handleMouseDown_minimap]))
  | mouseMove e =>
      exact Or.inl (same _ (by rw [step, CanvasManager.onDocumentMouseMove,
        handleMouseMove_rectangles]) (by rw [step, CanvasManager.onDocumentMouseMove,
        handleMouseMove_minimap]))
  | mouseUp now =>
      rcases handleMouseUp_cases { s with panzoom := s.panzoom.onMouseUp } now with
        h | ⟨cur, _, h⟩ | h
      · exact Or.inl (same _ (by rw [step, CanvasManager.onDocumentMouseUp, h])
          (by rw [step, CanvasManager.onDocumentMouseUp, h]))
      · refine Or.inr ⟨now, rfl, ?_, ?_⟩
        · rw [step, CanvasManager.onDocumentMouseUp, h]
          simp only [h1, createMinimapRectangle, MinimapManager.createMinimapRectangle,
            List.map_append, List.map_cons, List.map_nil]
        · unfold proxyIds proxies
          rw [step, CanvasManager.onDocumentMouseUp, h]
          simp only [h1, createMinimapRectangle, MinimapManager.createMinimapRectangle,
            MinimapManager.updateMinimapRectanglePosition, List.map_append, List.map_cons,
            List.map_nil]
      · exact Or.inl (same _ (by rw [step, CanvasManager.onDocumentMouseUp, h])
          (by rw [step, CanvasManager.onDocumentMouseUp, h]))
  | createBtnClick =>
      refine Or.inl ?_
      rw [step]
      unfold CanvasManager.switchMode
      split_ifs
      · apply hswitch
        · simp only [CanvasManager.onDocumentMouseMove, handleMouseMove_rectangles]
        · simp only [CanvasManager.onDocumentMouseMove, handleMouseMove_minimap]
      · exact hswitch _ _ rfl rfl
  | wheel e => exact Or.inl (same _ rfl rfl)
  | dblclick e => exact Or.inl (same _ rfl rfl)
  | minimapClick e =>
      refine Or.inl (same _ ?_ ?_) <;> simp only [step, CanvasManager.onMinimapClick, h1]
  | rectangleDragMove i dx dy =>
      refine Or.inl ?_
      simp only [step, CanvasManager.onRectangleDragMove]
      split
      · split_ifs
        · refine ⟨?_, ?_⟩
          · simp only [CanvasManager.dragMoveListener]
            apply mutateAt_map
            intro a
            rfl
          · unfold proxyIds proxies
            simp only [CanvasManager.dragMoveListener, h1, updateMinimapRectangles,
              MinimapManager.updateMinimapRectangles, updateLoop_forRectangle]
        · exact ⟨rfl, rfl⟩
      · exact ⟨rfl, rfl⟩


theorem clockReadings_cons (ev : Event) (rest : List Event) :
    clockReadings (ev :: rest) = clockReadings rest
    ∨ ∃ now, ev = Event.mouseUp now ∧ clockReadings (ev :: rest) = now :: clockReadings rest := by
  cases ev <;> first | exact Or.inl rfl | exact Or.inr ⟨_, rfl, rfl⟩

/-- The identifiers added by a sequence of events are clock readings of its pointer-ups,
in order, the same for the rectangles and for the proxies. -/
theorem run_ids (events : List Event) (s : CanvasManager) (hi : Inv s) :
    ∃ l : List Nat, l.Sublist (clockReadings events)
      ∧ (run s events).rectangles.map (fun r => r.id)
          = s.rectangles.map (fun r => r.id) ++ l.map some
      ∧ proxyIds (run s events) = proxyIds s ++ l := by
  induction events generalizing s with
  | nil => exact ⟨[], List.Sublist.slnil, by simp [run], by simp [run]⟩
  | cons ev rest ih =>
      obtain ⟨l, hl, hr, hp⟩ := ih (step s ev) (inv_step s ev hi)
      have hrun : run s (ev :: rest) = run (step s ev) rest := rfl
      rw [hrun, hr, hp]
      rcases step_ids s ev hi with ⟨h1, h2⟩ | ⟨now, hev, h1, h2⟩
      · refine ⟨l, ?_, by rw [h1], by rw [h2]⟩
        rcases clockReadings_cons ev rest with h | ⟨now, _, h⟩ <;> rw [h]
        · exact hl
        · exact List.Sublist.cons _ hl
      · refine ⟨now :: l, ?_, ?_, ?_⟩
        · rw [hev]
          exact List.Sublist.cons₂ _ hl
        · rw [h1, List.append_assoc]
          rfl
        · rw [h2, List.append_assoc]
          rfl

/-- In every reachable state the i-th rectangle carries the identifier of the i-th
proxy. -/
theorem linked_of_reachable (s : CanvasManager) (h : Reachable s) :
    Linked (proxies s) s.rectangles := by
  obtain ⟨win, events, rfl⟩ := h
  obtain ⟨l, _, hr, hp⟩ := run_ids events _ (inv_new win)
  rw [linked_iff_ids]
  have hp' : (proxies (run (CanvasManager.new win) events)).map
      (fun miniRect => miniRect.forRectangle) = l := by
    have : proxyIds (CanvasManager.new win) = [] := rfl
    rw [this, List.nil_append] at hp
    exact hp
  have hr0 : (CanvasManager.new win).rectangles.map (fun r => r.id) = [] := rfl
  rw [hr, hr0, List.nil_append, hp']

/-- When the clock readings offered to the pointer-ups are pairwise distinct, so are the
identifiers of the proxies. -/
theorem proxyIds_nodup (win : Window) (events : List Event)
    (hn : (clockReadings events).Nodup) :
    (proxyIds (run (CanvasManager.new win) events)).Nodup := by
  obtain ⟨l, hl, _, hp⟩ := run_ids events _ (inv_new win)
  have : proxyIds (CanvasManager.new win) = [] := rfl
  rw [hp, this, List.nil_append]
  exact hl.nodup hn

/-- Round-trip projection when the clock readings are pairwise distinct: after a
sequence of events from a fresh application, the move listener of a rectangle (which ends
with `updateMinimapRectangles`) leaves every proxy with the identifier of its rectangle
and at left/10000*100, top/10000*100, width/10000*100, height/10000*100 of it. -/
theorem projection_of_distinct_clock_readings (win : Window) (events : List Event)
    (hn : (clockReadings events).Nodup) (i : Nat) (dx dy : ℚ) :
    proxies ((run (CanvasManager.new win) events).dragMoveListener i dx dy)
      = List.zipWith (fun miniRect rect =>
          { forRectangle := miniRect.forRectangle
            left := rect.left / 10000 * 100
            top := rect.top / 10000 * 100
            width := rect.width / 10000 * 100
            height := rect.height / 10000 * 100 })
        (proxies (run (CanvasManager.new win) events))
        ((run (CanvasManager.new win) events).dragMoveListener i dx dy).rectangles
    ∧ Linked (proxies ((run (CanvasManager.new win) events).dragMoveListener i dx dy))
        ((run (CanvasManager.new win) events).dragMoveListener i dx dy).rectangles := by
  have hreach : Reachable (run (CanvasManager.new win) events) := ⟨win, events, rfl⟩
  obtain ⟨m, h1, _, h3, h4⟩ := inv_of_reachable _ hreach
  have hl := linked_of_reachable _ hreach
  have hnd := proxyIds_nodup win events hn
  unfold proxyIds at hnd
  rw [proxies_of_some _ m h1] at hl hnd ⊢
  have hl' : Linked m.miniRectangles
      ((run (CanvasManager.new win) events).dragMoveListener i dx dy).rectangles := by
    unfold Linked at hl ⊢
    rw [← hl]
    simp only [CanvasManager.dragMoveListener]
    apply mutateAt_map
    intro a
    rfl
  have hu := updateMinimapRectangles_of_nodup m _ hl' hnd
  rw [h3, h4] at hu
  have hp : proxies ((run (CanvasManager.new win) events).dragMoveListener i dx dy)
      = (m.updateMinimapRectangles
          ((run (CanvasManager.new win) events).dragMoveListener i dx dy).rectangles).miniRectangles := by
    unfold proxies
    simp only [CanvasManager.dragMoveListener, h1, updateMinimapRectangles]
  rw [hp]
  refine ⟨hu, ?_⟩
  rw [linked_iff_ids] at hl' ⊢
  rw [hl']
  simp only [MinimapManager.updateMinimapRectangles]
  rw [updateLoop_forRectangle]

/-! ### A pan-drag that outlives the switch to create mode -/

/-- While no pan-drag is in progress, a pointer-drag on the background in create mode
(pointer-down, pointer-moves, pointer-up) leaves the controller as it was, at every
moment of the gesture. -/
theorem create_mode_drag_keeps_pan (s : CanvasManager) (down : MouseEvent)
    (moves : List MouseEvent) (now : Nat) (hm : s.mode = Mode.create)
    (hd : s.panzoom.isDragging = false) :
    (drawing s down moves).panzoom = s.panzoom
    ∧ (drawGesture s down moves now).panzoom = s.panzoom := by
  have h := drawing_panzoom s down moves hm hd
  refine ⟨h, ?_⟩
  rw [drawGesture_eq, CanvasManager.onDocumentMouseUp, handleMouseUp_panzoom]
  show (drawing s down moves).panzoom.onMouseUp = s.panzoom
  rw [h, Panzoom.onMouseUp, hd]
  rfl

/-- C6, at the failing input.  In a 1000 x 800 window: pointer-down on the background at
(0,0) in pan mode, then the create button is activated while the button of the pointer
is still held.  The state is in create mode with translation (-4500, -4600); a
pointer-drag on the background from (100,100) to (200,200) then moves the translation
to (-4300, -4400), and it stays there after the pointer-up. -/
theorem C6_pan_offset_changes_in_create_mode :
    (run (CanvasManager.new ⟨1000, 800⟩)
      [Event.mouseDown Target.background ⟨0, 0⟩, Event.createBtnClick]).mode = Mode.create
    ∧ (run (CanvasManager.new ⟨1000, 800⟩)
      [Event.mouseDown Target.background ⟨0, 0⟩, Event.createBtnClick]).panzoom.getTransform
        = { x := -4500, y := -4600, scale := 1 }
    ∧ (drawing (run (CanvasManager.new ⟨1000, 800⟩)
        [Event.mouseDown Target.background ⟨0, 0⟩, Event.createBtnClick])
        ⟨100, 100⟩ [⟨200, 200⟩]).panzoom.getTransform
        = { x := -4300, y := -4400, scale := 1 }
    ∧ (drawGesture (run (CanvasManager.new ⟨1000, 800⟩)
        [Event.mouseDown Target.background ⟨0, 0⟩, Event.createBtnClick])
        ⟨100, 100⟩ [⟨200, 200⟩] 0).panzoom.getTransform
        = { x := -4300, y := -4400, scale := 1 } := by
  refine ⟨?_, ?_, ?_, ?_⟩ <;>
  · simp [run, step, proxies, drawing, drawGesture, CanvasManager.new,
    CanvasManager.centerCanvas, Panzoom.create, Panzoom.pan, setupMinimap,
    CanvasManager.switchMode, CanvasManager.onDocumentMouseMove, CanvasManager.handleMouseMove,
    Panzoom.onMouseMove, Panzoom.setOptions, CanvasManager.setRectanglesDraggable,
    CanvasManager.onCanvasMouseDown, CanvasManager.handleMouseDown, Panzoom.onMouseDown,
    Panzoom.getTransform, CanvasManager.onDocumentMouseUp, CanvasManager.handleMouseUp,
    Panzoom.onMouseUp, CanvasManager.makeRectangleDraggable, createMinimapRectangle,
    MinimapManager.createMinimapRectangle, MinimapManager.updateMinimapRectanglePosition,
    CanvasManager.onRectangleDragMove, CanvasManager.dragMoveListener, updateMinimapRectangles,
    MinimapManager.updateMinimapRectangles, MinimapManager.updateLoop, buildMiniMap,
    mutateAt_zero_cons, mutateAt_one_cons]
    try norm_num

/-- C5, at the failing input.  In a 1000 x 800 window: pointer-down on the background at
(0,0) in pan mode, then the create button is activated while the button of the pointer
is still held, which gives a create-mode state with no rectangle and no proxy.  A draw
gesture pressed at (100,100), with one pointer-move at (100,100), and released there has
its release point equal to its start point, yet it commits the rectangle
{left 4500, top 4600, width 100, height 100} and the proxy {45%, 46%, 1%, 1%}: the
pan-drag still in progress moved the canvas under the pointer.  The same press and
release without a pointer-move commits nothing. -/
theorem C5_release_at_start_commits :
    (run (CanvasManager.new ⟨1000, 800⟩)
      [Event.mouseDown Target.background ⟨0, 0⟩, Event.createBtnClick]).mode = Mode.create
    ∧ (run (CanvasManager.new ⟨1000, 800⟩)
      [Event.mouseDown Target.background ⟨0, 0⟩, Event.createBtnClick]).rectangles = []
    ∧ proxies (run (CanvasManager.new ⟨1000, 800⟩)
      [Event.mouseDown Target.background ⟨0, 0⟩, Event.createBtnClick]) = []
    ∧ lastPosition ⟨100, 100⟩ [⟨100, 100⟩] = ⟨100, 100⟩
    ∧ (drawGesture (run (CanvasManager.new ⟨1000, 800⟩)
        [Event.mouseDown Target.background ⟨0, 0⟩, Event.createBtnClick])
        ⟨100, 100⟩ [⟨100, 100⟩] 1700000000000).rectangles
        = [{ left := 4500, top := 4600, width := 100, height := 100,
             id := some 1700000000000, dragListener := true, dragEnabled := true }]
    ∧ proxies (drawGesture (run (CanvasManager.new ⟨1000, 800⟩)
        [Event.mouseDown Target.background ⟨0, 0⟩, Event.createBtnClick])
        ⟨100, 100⟩ [⟨100, 100⟩] 1700000000000)
        = [{ forRectangle := 1700000000000, left := 45, top := 46, width := 1, height := 1 }]
    ∧ (drawGesture (run (CanvasManager.new ⟨1000, 800⟩)
        [Event.mouseDown Target.background ⟨0, 0⟩, Event.createBtnClick])
        ⟨100, 100⟩ [] 1700000000000).rectangles = []
    ∧ proxies (drawGesture (run (CanvasManager.new ⟨1000, 800⟩)
        [Event.mouseDown Target.background ⟨0, 0⟩, Event.createBtnClick])
        ⟨100, 100⟩ [] 1700000000000) = [] := by
  refine ⟨?_, ?_, ?_, rfl, ?_, ?_, ?_, ?_⟩ <;>
  · simp [run, step, proxies, drawing, drawGesture, CanvasManager.new,
    CanvasManager.centerCanvas, Panzoom.create, Panzoom.pan, setupMinimap,
    CanvasManager.switchMode, CanvasManager.onDocumentMouseMove, CanvasManager.handleMouseMove,
    Panzoom.onMouseMove, Panzoom.setOptions, CanvasManager.setRectanglesDraggable,
    CanvasManager.onCanvasMouseDown, CanvasManager.handleMouseDown, Panzoom.onMouseDown,
    Panzoom.getTransform, CanvasManager.onDocumentMouseUp, CanvasManager.handleMouseUp,
    Panzoom.onMouseUp, CanvasManager.makeRectangleDraggable, createMinimapRectangle,
    MinimapManager.createMinimapRectangle, MinimapManager.updateMinimapRectanglePosition]
    try norm_num

/-! ### Identifiers read from the clock -/

/-- What `createMinimapRectangle` stamps: the rectangle and the new proxy both carry
the clock reading, and the proxy is appended with the rectangle's percentages. -/
theorem createMinimapRectangle_stamp (m : MinimapManager) (rectangle : RectEl) (now : Nat) :
    (m.createMinimapRectangle rectangle now).2 = { rectangle with id := some now }
    ∧ (m.createMinimapRectangle rectangle now).1.miniRectangles = m.miniRectangles ++
        [{ forRectangle := now
           left := rectangle.left / m.canvasWidth * 100
           top := rectangle.top / m.canvasHeight * 100
           width := rectangle.width / m.canvasWidth * 100
           height := rectangle.height / m.canvasHeight * 100 }] :=
  ⟨rfl, rfl⟩

/-- The state after two rectangles were drawn and both committed at the clock reading
1700000000000, in a 1000 x 800 window. -/
theorem twoRects_state :
    run (CanvasManager.new ⟨1000, 800⟩)
        [Event.createBtnClick,
         Event.mouseDown Target.background ⟨100, 100⟩, Event.mouseMove ⟨200, 200⟩,
         Event.mouseUp 1700000000000,
         Event.mouseDown Target.background ⟨300, 300⟩, Event.mouseMove ⟨400, 400⟩,
         Event.mouseUp 1700000000000]
      = { mode := Mode.create, isDrawing := false, currentRectangle := none,
          rectangleStartX := 4800, rectangleStartY := 4900,
          canvasWidth := 10000, canvasHeight := 10000,
          panzoom := { scale := 1, translateX := -4500, translateY := -4600,
                       isDragging := false, startX := 0, startY := 0, disablePan := true },
          rectangles :=
            [{ left := 4600, top := 4700, width := 100, height := 100,
               id := some 1700000000000, dragListener := true, dragEnabled := true },
             { left := 4800, top := 4900, width := 100, height := 100,
               id := some 1700000000000, dragListener := true, dragEnabled := true }],
          creating := [],
          minimapInstance := some
            { canvasWidth := 10000, canvasHeight := 10000,
              miniRectangles :=
                [{ forRectangle := 1700000000000, left := 46, top := 47, width := 1, height := 1 },
                 { forRectangle := 1700000000000, left := 48, top := 49, width := 1,
                   height := 1 }] } } := by
  simp [run, step, proxies, CanvasManager.new,
    CanvasManager.centerCanvas, Panzoom.create, Panzoom.pan, setupMinimap,
    CanvasManager.switchMode, CanvasManager.onDocumentMouseMove, CanvasManager.handleMouseMove,
    Panzoom.onMouseMove, Panzoom.setOptions, CanvasManager.setRectanglesDraggable,
    CanvasManager.onCanvasMouseDown, CanvasManager.handleMouseDown, Panzoom.onMouseDown,
    Panzoom.getTransform, CanvasManager.onDocumentMouseUp, CanvasManager.handleMouseUp,
    Panzoom.onMouseUp, CanvasManager.makeRectangleDraggable, createMinimapRectangle,
    MinimapManager.createMinimapRectangle, MinimapManager.updateMinimapRectanglePosition]
  norm_num

/-- The state after the first of the two rectangles was then dragged by (50, 50). -/
theorem twoRects_dragged :
    run (CanvasManager.new ⟨1000, 800⟩)
        [Event.createBtnClick,
         Event.mouseDown Target.background ⟨100, 100⟩, Event.mouseMove ⟨200, 200⟩,
         Event.mouseUp 1700000000000,
         Event.mouseDown Target.background ⟨300, 300⟩, Event.mouseMove ⟨400, 400⟩,
         Event.mouseUp 1700000000000,
         Event.rectangleDragMove 0 50 50]
      = { mode := Mode.create, isDrawing := false, currentRectangle := none,
          rectangleStartX := 4800, rectangleStartY := 4900,
          canvasWidth := 10000, canvasHeight := 10000,
          panzoom := { scale := 1, translateX := -4500, translateY := -4600,
                       isDragging := false, startX := 0, startY := 0, disablePan := true },
          rectangles :=
            [{ left := 4650, top := 4750, width := 100, height := 100,
               id := some 1700000000000, dragListener := true, dragEnabled := true },
             { left := 4800, top := 4900, width := 100, height := 100,
               id := some 1700000000000, dragListener := true, dragEnabled := true }],
          creating := [],
          minimapInstance := some
            { canvasWidth := 10000, canvasHeight := 10000,
              miniRectangles :=
                [{ forRectangle := 1700000000000, left := 46, top := 47, width := 1, height := 1 },
                 { forRectangle := 1700000000000, left := 48, top := 49, width := 1,
                   height := 1 }] } } := by
  have h := run_append (CanvasManager.new ⟨1000, 800⟩)
        [Event.createBtnClick,
         Event.mouseDown Target.background ⟨100, 100⟩, Event.mouseMove ⟨200, 200⟩,
         Event.mouseUp 1700000000000,
         Event.mouseDown Target.background ⟨300, 300⟩, Event.mouseMove ⟨400, 400⟩,
         Event.mouseUp 1700000000000] [Event.rectangleDragMove 0 50 50]
  rw [twoRects_state] at h
  simp only [List.cons_append, List.nil_append] at h
  rw [h]
  simp only [run, List.foldl, step, CanvasManager.onRectangleDragMove, List.get?,
    CanvasManager.dragMoveListener, and_self, if_true, mutateAt_zero_cons, Panzoom.getTransform,
    updateMinimapRectangles, MinimapManager.updateMinimapRectangles, buildMiniMap_cons,
    buildMiniMap_nil]
  rw [updateLoop_cons_some _ _ _ _ _ 1700000000000 1 rfl (by simp),
    updateLoop_cons_some _ _ _ _ _ 1700000000000 1 rfl (by simp), updateLoop_nil]
  simp only [mutateAt_one_cons, MinimapManager.updateMinimapRectanglePosition]
  norm_num


/-- C10, at the failing input.  Each call stamps the clock reading on the rectangle and
on its proxy, so two calls at the same reading give two rectangles the same identifier.
In a 1000 x 800 window, two rectangles drawn one after the other and both committed at
the clock reading 1700000000000 are different rectangles with the same identifier, and
both proxies carry it. -/
theorem C10_same_clock_same_identifier :
    (∀ (m : MinimapManager) (r₁ r₂ : RectEl) (now : Nat),
      (m.createMinimapRectangle r₁ now).2.id = some now
      ∧ ((m.createMinimapRectangle r₁ now).1.createMinimapRectangle r₂ now).2.id = some now)
    ∧ (run (CanvasManager.new ⟨1000, 800⟩)
        [Event.createBtnClick,
         Event.mouseDown Target.background ⟨100, 100⟩, Event.mouseMove ⟨200, 200⟩,
         Event.mouseUp 1700000000000,
         Event.mouseDown Target.background ⟨300, 300⟩, Event.mouseMove ⟨400, 400⟩,
         Event.mouseUp 1700000000000]).rectangles
        = [{ left := 4600, top := 4700, width := 100, height := 100,
             id := some 1700000000000, dragListener := true, dragEnabled := true },
           { left := 4800, top := 4900, width := 100, height := 100,
             id := some 1700000000000, dragListener := true, dragEnabled := true }]
    ∧ proxies (run (CanvasManager.new ⟨1000, 800⟩)
        [Event.createBtnClick,
         Event.mouseDown Target.background ⟨100, 100⟩, Event.mouseMove ⟨200, 200⟩,
         Event.mouseUp 1700000000000,
         Event.mouseDown Target.background ⟨300, 300⟩, Event.mouseMove ⟨400, 400⟩,
         Event.mouseUp 1700000000000])
        = [{ forRectangle := 1700000000000, left := 46, top := 47, width := 1, height := 1 },
           { forRectangle := 1700000000000, left := 48, top := 49, width := 1, height := 1 }] := by
  refine ⟨fun m r₁ r₂ now => ⟨rfl, rfl⟩, ?_, ?_⟩
  · rw [twoRects_state]
  · rw [twoRects_state]
    rfl

/-- C3, at the failing input.  In a 1000 x 800 window, two rectangles are committed at
the same clock reading 1700000000000 and the first one is then dragged by (50, 50), which
ends with `updateMinimapRectangles`.  The first rectangle is at left 4650, top 4750, but
the first proxy still shows 46% and 47%, and the second proxy shows the second rectangle:
no proxy that carries the identifier of the first rectangle is at 46.5%. -/
theorem C3_proxy_stale_after_update :
    (run (CanvasManager.new ⟨1000, 800⟩)
        [Event.createBtnClick,
         Event.mouseDown Target.background ⟨100, 100⟩, Event.mouseMove ⟨200, 200⟩,
         Event.mouseUp 1700000000000,
         Event.mouseDown Target.background ⟨300, 300⟩, Event.mouseMove ⟨400, 400⟩,
         Event.mouseUp 1700000000000,
         Event.rectangleDragMove 0 50 50]).rectangles
        = [{ left := 4650, top := 4750, width := 100, height := 100,
             id := some 1700000000000, dragListener := true, dragEnabled := true },
           { left := 4800, top := 4900, width := 100, height := 100,
             id := some 1700000000000, dragListener := true, dragEnabled := true }]
    ∧ proxies (run (CanvasManager.new ⟨1000, 800⟩)
        [Event.createBtnClick,
         Event.mouseDown Target.background ⟨100, 100⟩, Event.mouseMove ⟨200, 200⟩,
         Event.mouseUp 1700000000000,
         Event.mouseDown Target.background ⟨300, 300⟩, Event.mouseMove ⟨400, 400⟩,
         Event.mouseUp 1700000000000,
         Event.rectangleDragMove 0 50 50])
        = [{ forRectangle := 1700000000000, left := 46, top := 47, width := 1, height := 1 },
           { forRectangle := 1700000000000, left := 48, top := 49, width := 1, height := 1 }]
    ∧ ∀ p ∈ proxies (run (CanvasManager.new ⟨1000, 800⟩)
        [Event.createBtnClick,
         Event.mouseDown Target.background ⟨100, 100⟩, Event.mouseMove ⟨200, 200⟩,
         Event.mouseUp 1700000000000,
         Event.mouseDown Target.background ⟨300, 300⟩, Event.mouseMove ⟨400, 400⟩,
         Event.mouseUp 1700000000000,
         Event.rectangleDragMove 0 50 50]),
        p.forRectangle = 1700000000000 → p.left ≠ 4650 / 10000 * 100 := by
  refine ⟨?_, ?_, ?_⟩
  · rw [twoRects_dragged]
  · rw [twoRects_dragged]
    rfl
  · rw [twoRects_dragged]
    intro p hmem _
    simp only [proxies, List.mem_cons, List.mem_singleton, List.not_mem_nil, or_false] at hmem
    rcases hmem with rfl | rfl <;> norm_num


/-! ### Instances -/

/-- An instance of C4: after two committed rectangles, two proxies. -/
theorem C4_proxy_count_witness :
    Reachable (run (CanvasManager.new ⟨1000, 800⟩)
        [Event.createBtnClick,
         Event.mouseDown Target.background ⟨100, 100⟩, Event.mouseMove ⟨200, 200⟩,
         Event.mouseUp 1700000000000,
         Event.mouseDown Target.background ⟨300, 300⟩, Event.mouseMove ⟨400, 400⟩,
         Event.mouseUp 1700000000000])
    ∧ (proxies (run (CanvasManager.new ⟨1000, 800⟩)
        [Event.createBtnClick,
         Event.mouseDown Target.background ⟨100, 100⟩, Event.mouseMove ⟨200, 200⟩,
         Event.mouseUp 1700000000000,
         Event.mouseDown Target.background ⟨300, 300⟩, Event.mouseMove ⟨400, 400⟩,
         Event.mouseUp 1700000000000])).length
      = (run (CanvasManager.new ⟨1000, 800⟩)
        [Event.createBtnClick,
         Event.mouseDown Target.background ⟨100, 100⟩, Event.mouseMove ⟨200, 200⟩,
         Event.mouseUp 1700000000000,
         Event.mouseDown Target.background ⟨300, 300⟩, Event.mouseMove ⟨400, 400⟩,
         Event.mouseUp 1700000000000]).rectangles.length :=
  ⟨⟨_, _, rfl⟩, C4_proxy_count _ ⟨_, _, rfl⟩⟩

/-- In a fresh application switched to create mode, a click on the background without
any pointer-move adds no rectangle and no proxy. -/
theorem click_without_move_discards :
    Reachable (run (CanvasManager.new ⟨1000, 800⟩) [Event.createBtnClick])
    ∧ (run (CanvasManager.new ⟨1000, 800⟩) [Event.createBtnClick]).mode = Mode.create
    ∧ (drawGesture (run (CanvasManager.new ⟨1000, 800⟩) [Event.createBtnClick])
          ⟨100, 100⟩ [] 1700000000000).rectangles
        = (run (CanvasManager.new ⟨1000, 800⟩) [Event.createBtnClick]).rectangles
    ∧ proxies (drawGesture (run (CanvasManager.new ⟨1000, 800⟩) [Event.createBtnClick])
          ⟨100, 100⟩ [] 1700000000000)
        = proxies (run (CanvasManager.new ⟨1000, 800⟩) [Event.createBtnClick]) := by
  have hr : Reachable (run (CanvasManager.new ⟨1000, 800⟩) [Event.createBtnClick]) :=
    ⟨_, _, rfl⟩
  have hm : (run (CanvasManager.new ⟨1000, 800⟩) [Event.createBtnClick]).mode = Mode.create := by
    simp [run, step, proxies, drawing, drawGesture, CanvasManager.new,
    CanvasManager.centerCanvas, Panzoom.create, Panzoom.pan, setupMinimap,
    CanvasManager.switchMode, CanvasManager.onDocumentMouseMove, CanvasManager.handleMouseMove,
    Panzoom.onMouseMove, Panzoom.setOptions, CanvasManager.setRectanglesDraggable,
    CanvasManager.onCanvasMouseDown, CanvasManager.handleMouseDown, Panzoom.onMouseDown,
    Panzoom.getTransform, CanvasManager.onDocumentMouseUp, CanvasManager.handleMouseUp,
    Panzoom.onMouseUp, CanvasManager.makeRectangleDraggable, createMinimapRectangle,
    MinimapManager.createMinimapRectangle, MinimapManager.updateMinimapRectanglePosition]
  have hd : (run (CanvasManager.new ⟨1000, 800⟩) [Event.createBtnClick]).panzoom.isDragging
      = false := by
    simp [run, step, proxies, drawing, drawGesture, CanvasManager.new,
    CanvasManager.centerCanvas, Panzoom.create, Panzoom.pan, setupMinimap,
    CanvasManager.switchMode, CanvasManager.onDocumentMouseMove, CanvasManager.handleMouseMove,
    Panzoom.onMouseMove, Panzoom.setOptions, CanvasManager.setRectanglesDraggable,
    CanvasManager.onCanvasMouseDown, CanvasManager.handleMouseDown, Panzoom.onMouseDown,
    Panzoom.getTransform, CanvasManager.onDocumentMouseUp, CanvasManager.handleMouseUp,
    Panzoom.onMouseUp, CanvasManager.makeRectangleDraggable, createMinimapRectangle,
    MinimapManager.createMinimapRectangle, MinimapManager.updateMinimapRectanglePosition]
  obtain ⟨cur, _, _, _, _, _, _, _, _, h⟩ :=
    pointer_up_commits_or_discards (run (CanvasManager.new ⟨1000, 800⟩) [Event.createBtnClick])
      ⟨100, 100⟩ [] 1700000000000 hr hm
  exact ⟨hr, hm, h hd rfl⟩

/-- An instance of C7: scale 2, a click at (60, 70) in a minimap at (10, 20) of size
200 x 200, in a 1000 x 800 window. -/
theorem C7_click_to_recenter_witness :
    (MinimapManager.handleMinimapClick
        { canvasWidth := 10000, canvasHeight := 10000, miniRectangles := [] }
        { scale := 2, translateX := 30, translateY := -40, isDragging := false,
          startX := 0, startY := 0, disablePan := false }
        { clientX := 60, clientY := 70, targetIsMinimap := true,
          rect := { left := 10, top := 20, width := 200, height := 200 },
          win := { innerWidth := 1000, innerHeight := 800 } }).scale = 2 :=
  (C7_click_to_recenter
    { canvasWidth := 10000, canvasHeight := 10000, miniRectangles := [] }
    { scale := 2, translateX := 30, translateY := -40, isDragging := false,
      startX := 0, startY := 0, disablePan := false }
    { clientX := 60, clientY := 70, targetIsMinimap := true,
      rect := { left := 10, top := 20, width := 200, height := 200 },
      win := { innerWidth := 1000, innerHeight := 800 } }
    rfl (by norm_num) (by norm_num)).1

/-- An instance of C8: scale 3, translation (30, -40), a double click at (310, 220) in a
container at (10, 20): the scale becomes min(5, 6). -/
theorem C8_dblclick_zoom_witness :
    (Panzoom.onDblClick
        { scale := 3, translateX := 30, translateY := -40, isDragging := false,
          startX := 0, startY := 0, disablePan := false }
        { clientX := 310, clientY := 220,
          rect := { left := 10, top := 20, width := 800, height := 600 } }).scale
      = min 5 (2 * 3) :=
  (C8_dblclick_zoom
    { scale := 3, translateX := 30, translateY := -40, isDragging := false,
      startX := 0, startY := 0, disablePan := false }
    { clientX := 310, clientY := 220,
      rect := { left := 10, top := 20, width := 800, height := 600 } }
    (by norm_num) (by norm_num)).1

/-- An instance of C9: with the anchor at (50, 50), translation 0 and scale 1, a
pointer-move to (20, 120) gives a rectangle whose deltas were flipped. -/
theorem C9_draw_geometry_witness :
    ∃ r, (CanvasManager.handleMouseMove
        { mode := Mode.create, isDrawing := true
          currentRectangle := some
            { left := 50, top := 50, width := 0, height := 0, id := none,
              dragListener := false, dragEnabled := false }
          rectangleStartX := 50, rectangleStartY := 50
          canvasWidth := 10000, canvasHeight := 10000
          panzoom := { scale := 1, translateX := 0, translateY := 0, isDragging := false,
                       startX := 0, startY := 0, disablePan := true }
          rectangles := [], creating := []
          minimapInstance := setupMinimap 10000 10000 }
        { clientX := 20, clientY := 120 }).currentRectangle = some r
      ∧ r.left = min 50 (worldCoord 0 1 20) ∧ r.top = min 50 (worldCoord 0 1 120)
      ∧ r.width = |worldCoord 0 1 20 - 50| ∧ r.height = |worldCoord 0 1 120 - 50| := by
  obtain ⟨r, h1, h2, h3, h4, h5, _⟩ := C9_draw_geometry.1
    { mode := Mode.create, isDrawing := true
      currentRectangle := some
        { left := 50, top := 50, width := 0, height := 0, id := none,
          dragListener := false, dragEnabled := false }
      rectangleStartX := 50, rectangleStartY := 50
      canvasWidth := 10000, canvasHeight := 10000
      panzoom := { scale := 1, translateX := 0, translateY := 0, isDragging := false,
                   startX := 0, startY := 0, disablePan := true }
      rectangles := [], creating := []
      minimapInstance := setupMinimap 10000 10000 }
    { clientX := 20, clientY := 120 }
    { left := 50, top := 50, width := 0, height := 0, id := none,
      dragListener := false, dragEnabled := false }
    rfl rfl
  exact ⟨r, h1, h2, h3, h4, h5⟩


/-! ### The viewport indicator -/

/-- C12. Viewport indicator agrees with the proxy projection: for a scale in [0.1, 5.0],
any translation and any window size, the left, top, width and height percentages written
by `updateMinimapViewport` are those that `updateMinimapRectanglePosition` gives any
mini-rectangle for the world-space rectangle visible in the window, which has
left = (0 - translateX)/scale, top = (0 - translateY)/scale, width = innerWidth/scale and
height = innerHeight/scale. -/
theorem C12_viewport_agrees_with_projection (m : MinimapManager) (p : Panzoom) (win : Window)
    (miniRect : MiniRect) (hlo : 1 / 10 ≤ p.scale) (hhi : p.scale ≤ 5) :
    (m.updateMinimapViewport p win).left
        = (m.updateMinimapRectanglePosition miniRect
            (visibleWorldRect p.getTransform win)).left
    ∧ (m.updateMinimapViewport p win).top
        = (m.updateMinimapRectanglePosition miniRect
            (visibleWorldRect p.getTransform win)).top
    ∧ (m.updateMinimapViewport p win).width
        = (m.updateMinimapRectanglePosition miniRect
            (visibleWorldRect p.getTransform win)).width
    ∧ (m.updateMinimapViewport p win).height
        = (m.updateMinimapRectanglePosition miniRect
            (visibleWorldRect p.getTransform win)).height
    ∧ (visibleWorldRect p.getTransform win).left = worldCoord p.translateX p.scale 0
    ∧ (visibleWorldRect p.getTransform win).top = worldCoord p.translateY p.scale 0
    ∧ (visibleWorldRect p.getTransform win).left + (visibleWorldRect p.getTransform win).width
        = worldCoord p.translateX p.scale win.innerWidth
    ∧ (visibleWorldRect p.getTransform win).top + (visibleWorldRect p.getTransform win).height
        = worldCoord p.translateY p.scale win.innerHeight := by
  have hs : p.scale ≠ 0 := (lt_of_lt_of_le (by norm_num) hlo).ne'
  have hle : p.scale ≤ 5 := hhi
  simp only [MinimapManager.updateMinimapViewport, MinimapManager.updateMinimapRectanglePosition,
    visibleWorldRect, Panzoom.getTransform, worldCoord, zero_sub]
  refine ⟨?_, ?_, ?_, ?_, trivial, trivial, ?_, ?_⟩
  · rw [div_div, mul_comm p.scale]
  · rw [div_div, mul_comm p.scale]
  · rw [div_div, mul_comm p.scale]
  · rw [div_div, mul_comm p.scale]
  · rw [← add_div]
    congr 1
    ring
  · rw [← add_div]
    congr 1
    ring

/-- An instance of C12: scale 2, translation (-300, -400), a 1000 x 800 window. -/
theorem C12_viewport_agrees_with_projection_witness :
    (MinimapManager.updateMinimapViewport
        { canvasWidth := 10000, canvasHeight := 10000, miniRectangles := [] }
        { scale := 2, translateX := -300, translateY := -400, isDragging := false,
          startX := 0, startY := 0, disablePan := false }
        { innerWidth := 1000, innerHeight := 800 }).left
      = (MinimapManager.updateMinimapRectanglePosition
          { canvasWidth := 10000, canvasHeight := 10000, miniRectangles := [] }
          { forRectangle := 0, left := 0, top := 0, width := 0, height := 0 }
          (visibleWorldRect
            (Panzoom.getTransform
              { scale := 2, translateX := -300, translateY := -400, isDragging := false,
                startX := 0, startY := 0, disablePan := false })
            { innerWidth := 1000, innerHeight := 800 })).left :=
  (C12_viewport_agrees_with_projection
    { canvasWidth := 10000, canvasHeight := 10000, miniRectangles := [] }
    { scale := 2, translateX := -300, translateY := -400, isDragging := false,
      startX := 0, startY := 0, disablePan := false }
    { innerWidth := 1000, innerHeight := 800 }
    { forRectangle := 0, left := 0, top := 0, width := 0, height := 0 }
    (by norm_num) (by norm_num)).1


/-! ### The range of the percentages -/

theorem updateMinimapRectanglePosition_inRange (m : MinimapManager) (miniRect : MiniRect)
    (r : RectEl) (hw : m.canvasWidth = 10000) (hh : m.canvasHeight = 10000)
    (hr : WithinCanvas r) : InRange (m.updateMinimapRectanglePosition miniRect r) := by
  obtain ⟨h1, h2, h3, h4, h5, h6⟩ := hr
  simp only [InRange, MinimapManager.updateMinimapRectanglePosition, hw, hh]
  refine ⟨?_, ?_, ?_, ?_, ?_, ?_, ?_, ?_⟩ <;> linarith

theorem mem_mutateAt {α : Type} (f : α → α) (i : Nat) (l : List α) (x : α)
    (hx : x ∈ mutateAt f i l) : x ∈ l ∨ ∃ a ∈ l, x = f a := by
  induction l generalizing i with
  | nil => cases i <;> cases hx
  | cons b l ih =>
      cases i with
      | zero =>
          rw [mutateAt_zero_cons, List.mem_cons] at hx
          rcases hx with h | h
          · exact Or.inr ⟨b, List.mem_cons_self _ _, h⟩
          · exact Or.inl (List.mem_cons_of_mem _ h)
      | succ i =>
          have hx' : x ∈ b :: mutateAt f i l := hx
          rw [List.mem_cons] at hx'
          rcases hx' with h | h
          · exact Or.inl (h ▸ List.mem_cons_self _ _)
          · rcases ih i h with h' | ⟨a, ha, h'⟩
            · exact Or.inl (List.mem_cons_of_mem _ h')
            · exact Or.inr ⟨a, List.mem_cons_of_mem _ ha, h'⟩

/-- The loop of `updateMinimapRectangles` over rectangles on the canvas keeps the
percentages in [0, 100]. -/
theorem updateLoop_inRange (m : MinimapManager) (miniMap : RefMap) (rects : List RectEl)
    (minis : List MiniRect) (hw : m.canvasWidth = 10000) (hh : m.canvasHeight = 10000)
    (hr : ∀ r ∈ rects, WithinCanvas r) (hp : ∀ p ∈ minis, InRange p) :
    ∀ p ∈ m.updateLoop miniMap rects minis, InRange p := by
  induction rects generalizing minis with
  | nil => exact hp
  | cons rect rest ih =>
      have hrest : ∀ r ∈ rest, WithinCanvas r := fun r h => hr r (List.mem_cons_of_mem _ h)
      unfold MinimapManager.updateLoop
      split
      · apply ih _ hrest
        intro p hmem
        rcases mem_mutateAt _ _ _ _ hmem with h | ⟨a, _, h⟩
        · exact hp p h
        · rw [h]
          exact updateMinimapRectanglePosition_inRange m a rect hw hh
            (hr rect (List.mem_cons_self _ _))
      · exact ih minis hrest hp

/-- One event keeps the percentages of all proxies in [0, 100] if the rectangles it
leaves all lie on the canvas. -/
theorem step_inRange (s : CanvasManager) (ev : Event) (hi : Inv s)
    (hp : ∀ p ∈ proxies s, InRange p)
    (hr : ∀ r ∈ (step s ev).rectangles, WithinCanvas r) :
    ∀ p ∈ proxies (step s ev), InRange p := by
  obtain ⟨m, h1, _, hw, hh⟩ := hi
  have same : ∀ s' : CanvasManager, s'.minimapInstance = s.minimapInstance →
      ∀ p ∈ proxies s', InRange p := by
    intro s' hm
    unfold proxies
    rw [hm]
    exact hp
  cases ev with
  | mouseDown t e =>
      exact same _ (by rw [step, CanvasManager.onCanvasMouseDown, handleMouseDown_minimap])
  | mouseMove e =>
      exact same _ (by rw [step, CanvasManager.onDocumentMouseMove, handleMouseMove_minimap])
  | mouseUp now =>
      rcases handleMouseUp_cases { s with panzoom := s.panzoom.onMouseUp } now with
        h | ⟨cur, _, h⟩ | h
      · exact same _ (by rw [step, CanvasManager.onDocumentMouseUp, h])
      · rw [step, CanvasManager.onDocumentMouseUp, h] at hr ⊢
        simp only [h1, createMinimapRectangle, MinimapManager.createMinimapRectangle] at hr
        rw [proxies_of_some s m h1] at hp
        simp only [proxies, h1, createMinimapRectangle, MinimapManager.createMinimapRectangle]
        intro p hmem
        rw [List.mem_append, List.mem_singleton] at hmem
        rcases hmem with hmem | hmem
        · exact hp p hmem
        · rw [hmem]
          apply updateMinimapRectanglePosition_inRange m _ _ hw hh
          exact hr _ (List.mem_append_right _ (List.mem_singleton_self _))
      · exact same _ (by rw [step, CanvasManager.onDocumentMouseUp, h])
  | createBtnClick =>
      apply same
      rw [step]
      unfold CanvasManager.switchMode
      split_ifs
      · simp only [CanvasManager.setRectanglesDraggable, CanvasManager.onDocumentMouseMove,
          handleMouseMove_minimap]
      · rfl
  | wheel e => exact same _ rfl
  | dblclick e => exact same _ rfl
  | minimapClick e =>
      apply same
      simp only [step, CanvasManager.onMinimapClick, h1]
  | rectangleDragMove i dx dy =>
      have hstep : step s (Event.rectangleDragMove i dx dy) = s.onRectangleDragMove i dx dy :=
        rfl
      rw [hstep] at hr ⊢
      unfold CanvasManager.onRectangleDragMove at hr ⊢
      cases hg : s.rectangles.get? i with
      | none =>
          simp only [hg]
          exact hp
      | some rect =>
          simp only [hg] at hr ⊢
          by_cases hc : rect.dragListener = true ∧ rect.dragEnabled = true
          · rw [if_pos hc] at hr ⊢
            rw [proxies_of_some s m h1] at hp
            simp only [CanvasManager.dragMoveListener] at hr
            simp only [proxies, CanvasManager.dragMoveListener, h1, updateMinimapRectangles,
              MinimapManager.updateMinimapRectangles]
            exact updateLoop_inRange m _ _ _ hw hh hr hp
          · rw [if_neg hc]
            exact hp

/-- Along a sequence of events whose states all have their rectangles on the canvas,
the percentages of all proxies stay in [0, 100]. -/
theorem run_inRange (events : List Event) (s : CanvasManager) (hi : Inv s)
    (hp : ∀ p ∈ proxies s, InRange p)
    (hr : ∀ k, ∀ r ∈ (run s (events.take k)).rectangles, WithinCanvas r) :
    ∀ p ∈ proxies (run s events), InRange p := by
  induction events generalizing s with
  | nil => exact hp
  | cons ev rest ih =>
      apply ih (step s ev) (inv_step s ev hi)
      · exact step_inRange s ev hi hp (hr 1)
      · intro k
        exact hr (k + 1)


/-- The geometry of the in-progress rectangle during a draw gesture started in create
mode: it spans the anchor and the world point under the last pointer position. -/
theorem drawing_geometry (s : CanvasManager) (down : MouseEvent) (moves : List MouseEvent)
    (hm : s.mode = Mode.create) :
    ∃ cur, (drawing s down moves).currentRectangle = some cur
      ∧ cur.left = min (drawing s down moves).rectangleStartX
          (worldCoord (drawing s down moves).panzoom.translateX
            (drawing s down moves).panzoom.scale (lastPosition down moves).clientX)
      ∧ cur.top = min (drawing s down moves).rectangleStartY
          (worldCoord (drawing s down moves).panzoom.translateY
            (drawing s down moves).panzoom.scale (lastPosition down moves).clientY)
      ∧ cur.width = |worldCoord (drawing s down moves).panzoom.translateX
            (drawing s down moves).panzoom.scale (lastPosition down moves).clientX
          - (drawing s down moves).rectangleStartX|
      ∧ cur.height = |worldCoord (drawing s down moves).panzoom.translateY
            (drawing s down moves).panzoom.scale (lastPosition down moves).clientY
          - (drawing s down moves).rectangleStartY| := by
  induction moves using List.reverseRecOn with
  | nil =>
      rw [drawing_nil, onCanvasMouseDown_create s down hm, lastPosition_nil]
      refine ⟨_, rfl, ?_, ?_, ?_, ?_⟩ <;> simp
  | append_singleton ms e _ =>
      obtain ⟨h1, _, _, _, _, _, _, cur, h8, _⟩ := drawing_spec s down ms hm
      rw [drawing_snoc, lastPosition_snoc, onDocumentMouseMove_drawing _ e cur h1 h8]
      exact ⟨_, rfl, rfl, rfl, rfl, rfl⟩

/-- A rectangle that spans two points of the canvas lies on the canvas. -/
theorem withinCanvas_of_span (cur : RectEl) (sx sy x y : ℚ)
    (hl : cur.left = min sx x) (ht : cur.top = min sy y)
    (hw : cur.width = |x - sx|) (hh : cur.height = |y - sy|)
    (h1 : 0 ≤ sx) (h2 : sx ≤ 10000) (h3 : 0 ≤ sy) (h4 : sy ≤ 10000)
    (h5 : 0 ≤ x) (h6 : x ≤ 10000) (h7 : 0 ≤ y) (h8 : y ≤ 10000) :
    WithinCanvas cur := by
  unfold WithinCanvas
  rw [hl, ht, hw, hh]
  refine ⟨le_min h1 h5, le_min h3 h7, abs_nonneg _, abs_nonneg _, ?_, ?_⟩
  · rcases le_total sx x with h | h
    · rw [min_eq_left h, abs_of_nonneg (by linarith)]; linarith
    · rw [min_eq_right h, abs_of_nonpos (by linarith)]; linarith
  · rcases le_total sy y with h | h
    · rw [min_eq_left h, abs_of_nonneg (by linarith)]; linarith
    · rw [min_eq_right h, abs_of_nonpos (by linarith)]; linarith

/-- C11 as stated fails.  In a 1000 x 800 window: a click on the left edge of the minimap
background, at half its height, puts the world point (0, 5000) at the centre of the
window; in create mode a rectangle is then drawn from the screen point (600, 100), which
is on the canvas, to (100, 300), which is left of it.  The committed rectangle has
left -400 and its proxy is at -4%. -/
theorem C11_proxy_left_negative :
    (run (CanvasManager.new ⟨1000, 800⟩)
        [Event.minimapClick
           { clientX := 20, clientY := 120, targetIsMinimap := true,
             rect := { left := 20, top := 20, width := 200, height := 200 },
             win := { innerWidth := 1000, innerHeight := 800 } },
         Event.createBtnClick,
         Event.mouseDown Target.background ⟨600, 100⟩, Event.mouseMove ⟨100, 300⟩,
         Event.mouseUp 1700000000000]).rectangles
        = [{ left := -400, top := 4700, width := 500, height := 200,
             id := some 1700000000000, dragListener := true, dragEnabled := true }]
    ∧ proxies (run (CanvasManager.new ⟨1000, 800⟩)
        [Event.minimapClick
           { clientX := 20, clientY := 120, targetIsMinimap := true,
             rect := { left := 20, top := 20, width := 200, height := 200 },
             win := { innerWidth := 1000, innerHeight := 800 } },
         Event.createBtnClick,
         Event.mouseDown Target.background ⟨600, 100⟩, Event.mouseMove ⟨100, 300⟩,
         Event.mouseUp 1700000000000])
        = [{ forRectangle := 1700000000000, left := -4, top := 47, width := 5, height := 2 }]
    ∧ ¬ InRange { forRectangle := 1700000000000, left := -4, top := 47, width := 5,
                  height := 2 } := by
  refine ⟨?_, ?_, ?_⟩
  · simp [run, step, proxies, drawing, drawGesture, CanvasManager.new,
    CanvasManager.centerCanvas, Panzoom.create, Panzoom.pan, setupMinimap,
    CanvasManager.switchMode, CanvasManager.onDocumentMouseMove, CanvasManager.handleMouseMove,
    Panzoom.onMouseMove, Panzoom.setOptions, CanvasManager.setRectanglesDraggable,
    CanvasManager.onCanvasMouseDown, CanvasManager.handleMouseDown, Panzoom.onMouseDown,
    Panzoom.getTransform, CanvasManager.onDocumentMouseUp, CanvasManager.handleMouseUp,
    Panzoom.onMouseUp, CanvasManager.makeRectangleDraggable, createMinimapRectangle,
    MinimapManager.createMinimapRectangle, MinimapManager.updateMinimapRectanglePosition,
    CanvasManager.onMinimapClick, MinimapManager.handleMinimapClick]
    norm_num
  · simp [run, step, proxies, drawing, drawGesture, CanvasManager.new,
    CanvasManager.centerCanvas, Panzoom.create, Panzoom.pan, setupMinimap,
    CanvasManager.switchMode, CanvasManager.onDocumentMouseMove, CanvasManager.handleMouseMove,
    Panzoom.onMouseMove, Panzoom.setOptions, CanvasManager.setRectanglesDraggable,
    CanvasManager.onCanvasMouseDown, CanvasManager.handleMouseDown, Panzoom.onMouseDown,
    Panzoom.getTransform, CanvasManager.onDocumentMouseUp, CanvasManager.handleMouseUp,
    Panzoom.onMouseUp, CanvasManager.makeRectangleDraggable, createMinimapRectangle,
    MinimapManager.createMinimapRectangle, MinimapManager.updateMinimapRectanglePosition,
    CanvasManager.onMinimapClick, MinimapManager.handleMinimapClick]
    norm_num
  · unfold InRange
    norm_num


/-- C11, amended.  A draw gesture in create mode, from any reachable state, whose anchor
and whose world point under the pointer at release both lie on the 10000 x 10000 canvas
and which is committed, appends a rectangle that lies on the canvas and a proxy with the
same identifier whose four percentages lie in [0, 100], with width and height above 0.
And along any sequence of events (draw gestures, drag-moves, mode switches, pans and
zooms) whose states all have their rectangles on the canvas, the four percentages of
every proxy lie in [0, 100]. -/
theorem C11_proxy_range_on_canvas :
    (∀ (s : CanvasManager) (down : MouseEvent) (moves : List MouseEvent) (now : Nat)
        (cur : RectEl),
      Reachable s → s.mode = Mode.create →
      (drawing s down moves).currentRectangle = some cur → 0 < cur.width → 0 < cur.height →
      0 ≤ (drawing s down moves).rectangleStartX →
      (drawing s down moves).rectangleStartX ≤ 10000 →
      0 ≤ (drawing s down moves).rectangleStartY →
      (drawing s down moves).rectangleStartY ≤ 10000 →
      0 ≤ worldCoord (drawing s down moves).panzoom.translateX
            (drawing s down moves).panzoom.scale (lastPosition down moves).clientX →
      worldCoord (drawing s down moves).panzoom.translateX
            (drawing s down moves).panzoom.scale (lastPosition down moves).clientX ≤ 10000 →
      0 ≤ worldCoord (drawing s down moves).panzoom.translateY
            (drawing s down moves).panzoom.scale (lastPosition down moves).clientY →
      worldCoord (drawing s down moves).panzoom.translateY
            (drawing s down moves).panzoom.scale (lastPosition down moves).clientY ≤ 10000 →
      ∃ p r, proxies (drawGesture s down moves now) = proxies s ++ [p]
        ∧ (drawGesture s down moves now).rectangles = s.rectangles ++ [r]
        ∧ r.id = some p.forRectangle
        ∧ p.left = r.left / 10000 * 100 ∧ p.top = r.top / 10000 * 100
        ∧ p.width = r.width / 10000 * 100 ∧ p.height = r.height / 10000 * 100
        ∧ WithinCanvas r ∧ InRange p ∧ 0 < p.width ∧ 0 < p.height)
    ∧ ∀ (win : Window) (events : List Event),
        (∀ k, ∀ r ∈ (run (CanvasManager.new win) (events.take k)).rectangles, WithinCanvas r) →
        ∀ p ∈ proxies (run (CanvasManager.new win) events), InRange p := by
  refine ⟨?_, ?_⟩
  · intro s down moves now cur hr hm hc hw hh h1 h2 h3 h4 h5 h6 h7 h8
    obtain ⟨cur', hc', hl, ht, hwd, hht⟩ := drawing_geometry s down moves hm
    rw [hc] at hc'
    cases hc'
    have hwc : WithinCanvas cur :=
      withinCanvas_of_span cur _ _ _ _ hl ht hwd hht h1 h2 h3 h4 h5 h6 h7 h8
    obtain ⟨g1, g2, _, _⟩ :=
      drawGesture_commit s down moves now cur (inv_of_reachable s hr) hm hc hw hh
    refine ⟨_, _, g2, g1, rfl, rfl, rfl, rfl, rfl, hwc, ?_, ?_, ?_⟩
    · obtain ⟨a1, a2, a3, a4, a5, a6⟩ := hwc
      unfold InRange
      refine ⟨?_, ?_, ?_, ?_, ?_, ?_, ?_, ?_⟩ <;> simp only <;> linarith
    · show 0 < cur.width / 10000 * 100
      linarith
    · show 0 < cur.height / 10000 * 100
      linarith
  · intro win events hr
    refine run_inRange events _ (inv_new win) ?_ hr
    intro p hp
    cases hp

/-- The state while the first rectangle of a fresh application is drawn from the screen
point (100, 100) to (200, 200), in a 1000 x 800 window. -/
theorem firstRect_drawing :
    drawing (run (CanvasManager.new ⟨1000, 800⟩) [Event.createBtnClick]) ⟨100, 100⟩ [⟨200, 200⟩]
      = { mode := Mode.create, isDrawing := true
          currentRectangle := some
            { left := 4600, top := 4700, width := 100, height := 100, id := none,
              dragListener := false, dragEnabled := false }
          rectangleStartX := 4600, rectangleStartY := 4700
          canvasWidth := 10000, canvasHeight := 10000
          panzoom := { scale := 1, translateX := -4500, translateY := -4600,
                       isDragging := false, startX := 0, startY := 0, disablePan := true }
          rectangles := [], creating := []
          minimapInstance := some
            { canvasWidth := 10000, canvasHeight := 10000, miniRectangles := [] } } := by
  simp [run, step, proxies, drawing, drawGesture, CanvasManager.new,
      CanvasManager.centerCanvas, Panzoom.create, Panzoom.pan, setupMinimap,
      CanvasManager.switchMode, CanvasManager.onDocumentMouseMove,
      CanvasManager.handleMouseMove, Panzoom.onMouseMove, Panzoom.setOptions,
      CanvasManager.setRectanglesDraggable, CanvasManager.onCanvasMouseDown,
      CanvasManager.handleMouseDown, Panzoom.onMouseDown, Panzoom.getTransform]
  norm_num

/-- An instance of C11: the first rectangle of a fresh application, drawn from the screen
point (100, 100) to (200, 200) in a 1000 x 800 window, gets a proxy with percentages in
[0, 100]. -/
theorem C11_proxy_range_on_canvas_witness :
    ∃ p r, proxies (drawGesture (run (CanvasManager.new ⟨1000, 800⟩) [Event.createBtnClick])
          ⟨100, 100⟩ [⟨200, 200⟩] 1700000000000)
        = proxies (run (CanvasManager.new ⟨1000, 800⟩) [Event.createBtnClick]) ++ [p]
      ∧ (drawGesture (run (CanvasManager.new ⟨1000, 800⟩) [Event.createBtnClick])
          ⟨100, 100⟩ [⟨200, 200⟩] 1700000000000).rectangles
        = (run (CanvasManager.new ⟨1000, 800⟩) [Event.createBtnClick]).rectangles ++ [r]
      ∧ WithinCanvas r ∧ InRange p := by
  have hm : (run (CanvasManager.new ⟨1000, 800⟩) [Event.createBtnClick]).mode = Mode.create := by
    simp [run, step, proxies, drawing, drawGesture, CanvasManager.new,
      CanvasManager.centerCanvas, Panzoom.create, Panzoom.pan, setupMinimap,
      CanvasManager.switchMode, CanvasManager.onDocumentMouseMove,
      CanvasManager.handleMouseMove, Panzoom.onMouseMove, Panzoom.setOptions,
      CanvasManager.setRectanglesDraggable, CanvasManager.onCanvasMouseDown,
      CanvasManager.handleMouseDown, Panzoom.onMouseDown, Panzoom.getTransform]
  obtain ⟨p, r, h1, h2, _, _, _, _, _, h3, h4, _⟩ :=
    C11_proxy_range_on_canvas.1
      (run (CanvasManager.new ⟨1000, 800⟩) [Event.createBtnClick]) ⟨100, 100⟩ [⟨200, 200⟩]
      1700000000000
      { left := 4600, top := 4700, width := 100, height := 100, id := none,
        dragListener := false, dragEnabled := false }
      ⟨_, _, rfl⟩ hm
      (by rw [firstRect_drawing])
      (by norm_num) (by norm_num)
      (by rw [firstRect_drawing]; norm_num) (by rw [firstRect_drawing]; norm_num)
      (by rw [firstRect_drawing]; norm_num) (by rw [firstRect_drawing]; norm_num)
      (by rw [firstRect_drawing]; norm_num [worldCoord, lastPosition])
      (by rw [firstRect_drawing]; norm_num [worldCoord, lastPosition])
      (by rw [firstRect_drawing]; norm_num [worldCoord, lastPosition])
      (by rw [firstRect_drawing]; norm_num [worldCoord, lastPosition])
  exact ⟨p, r, h1, h2, h3, h4⟩

end DesignerCanvas
